import Mathlib

set_option linter.unusedVariables false

/-!
Shallow embedding of a browser front end for translation/summarization.

The program has three modules:
* `API` (transport client, `frontend/js/api.js`): wraps `fetch` calls and
  normalizes any thrown/rejected failure into `{success:false, error:...}`.
* `UI` (presentation helper): side-effecting functions over DOM element state,
  addressed by element id.
* `App` (controller): binds user actions to `API` calls and `UI` updates and
  owns the session state (language list, current input/output text).

The DOM is embedded as a finite association of element ids to element records
(`Dom`); JavaScript `TypeError`s raised by dereferencing a `null` element are
embedded as `Except Unit`.  The backend's answer to a request is passed to a
handler as an explicit parameter, and the request actually issued to the
transport client (if any) is returned, so that "no request is issued" is a
statement about the returned value.  `setTimeout` callbacks (status auto-hide)
are outside the model; only the immediate effect of each operation is embedded.
-/

namespace Frontend

/-- Language record supplied by the backend: `{code, name, native}`. -/
structure Language where
  code : String
  name : String
  native : String
deriving DecidableEq, Repr

/-- Parsed JSON body of a backend response to `/translate` or `/summarize`.
Fields absent from a given response are defaulted (`error` is `none` when the
JS object has no `error` property, mirroring `undefined`). -/
structure ApiResponse where
  success : Bool
  translated_text : String := ""
  summary : String := ""
  processing_time : String := ""
  error : Option String := none
deriving DecidableEq, Repr

/-- Parsed JSON body of a backend response to `/languages`.  `languages` is
`none` when the property is absent (`undefined` in JS). -/
structure LanguagesResponse where
  success : Bool
  languages : Option (List Language) := none
deriving DecidableEq, Repr

namespace API

/-- The normalized failure object built in the `catch` blocks of `API.post`
and `API.get`. -/
def connectError : ApiResponse :=
  { success := false
    error := some "Failed to connect to server. Please ensure the backend is running." }

/-- `API.post(endpoint, data)`.  The `outcome` parameter is what the `try`
block produces: `.ok r` when `fetch` resolved and `response.json()` parsed to
`r`, `.error ()` when either threw or rejected.  The whole body is inside
`try`, so the function itself always returns a value (it never throws): the
codomain is `ApiResponse`, not `Except`. -/
def post (endpoint : String) (data : List (String × String))
    (outcome : Except Unit ApiResponse) : ApiResponse :=
  match endpoint, data, outcome with
  | _, _, .ok r => r
  | _, _, .error _ => connectError

/-- `API.get(endpoint)`: same normalization as `post`, with no request body. -/
def get (endpoint : String) (outcome : Except Unit ApiResponse) : ApiResponse :=
  match endpoint, outcome with
  | _, .ok r => r
  | _, .error _ => connectError

end API

/-- A DOM element, restricted to the properties the program reads or writes:
`value`, `disabled`, `classList`, `textContent`, the `<option>` children of a
`<select>` (as `(value, textContent)` pairs), and the `style.opacity` of the
element's `.btn-text` child (`none` when the element has no such child). -/
structure Elem where
  value : String := ""
  disabled : Bool := false
  classes : List String := []
  textContent : String := ""
  options : List (String × String) := []
  btnTextOpacity : Option String := none
deriving DecidableEq, Repr

/-- The document: elements keyed by id, and for each radio-button group name
the value of its checked member (absent when none is checked). -/
structure Dom where
  elems : List (String × Elem) := []
  radios : List (String × String) := []
deriving DecidableEq, Repr

/-- `document.getElementById(id)`: `none` embeds JS `null`. -/
def getElementById (d : Dom) (id : String) : Option Elem :=
  (d.elems.find? (fun p => p.1 == id)).map (fun p => p.2)

/-- Mutate the element with the given id in place (a no-op when absent, as a
JS property write can only happen through a non-null reference obtained by
`getElementById`). -/
def updateElem (d : Dom) (id : String) (f : Elem → Elem) : Dom :=
  { d with elems := d.elems.map (fun p => if p.1 == id then (p.1, f p.2) else p) }

/-- `classList.add c`: appends `c` unless already present. -/
def addClass (e : Elem) (c : String) : Elem :=
  if c ∈ e.classes then e else { e with classes := e.classes ++ [c] }

/-- `classList.remove c`: removes every occurrence of `c`. -/
def removeClass (e : Elem) (c : String) : Elem :=
  { e with classes := e.classes.filter (fun x => x ≠ c) }

/-- The `value` of the element with the given id, when present. -/
def elemValue (d : Dom) (id : String) : Option String :=
  (getElementById d id).map Elem.value

/-- The `disabled` flag of the element with the given id, when present. -/
def elemDisabled (d : Dom) (id : String) : Option Bool :=
  (getElementById d id).map Elem.disabled

/-- The `textContent` of the element with the given id, when present. -/
def elemText (d : Dom) (id : String) : Option String :=
  (getElementById d id).map Elem.textContent

/-- JS `s.trim()`, modeled on the string's character list: drop whitespace
from the front, then drop whitespace from the back.  (JS `\\s` is approximated
by `Char.isWhitespace`, as elsewhere in this embedding.) -/
def jsTrim (s : String) : String :=
  ⟨((s.data.dropWhile Char.isWhitespace).reverse.dropWhile Char.isWhitespace).reverse⟩

namespace UI

/-- Accumulator pass for `jsSplitWS`: collects the maximal whitespace-free
runs of the character list (the accumulator holds the current run reversed). -/
def jsSplitWSAux : List Char → List Char → List (List Char)
  | [], acc => if acc.isEmpty then [] else [acc.reverse]
  | c :: rest, acc =>
    if c.isWhitespace then
      if acc.isEmpty then jsSplitWSAux rest []
      else acc.reverse :: jsSplitWSAux rest []
    else jsSplitWSAux rest (c :: acc)

/-- JS `s.split(/\s+/)` restricted to strings with no leading or trailing
whitespace (the program only applies it to `text.trim()`): the maximal
whitespace-free runs of the string, in order. -/
def jsSplitWS (s : String) : List String :=
  (jsSplitWSAux s.data []).map (fun cs => ⟨cs⟩)

/-- `text.trim() ? text.trim().split(/\s+/).length : 0` from `UI.updateStats`. -/
def wordCountOf (text : String) : Nat :=
  if jsTrim text ≠ "" then (jsSplitWS (jsTrim text)).length else 0

/-- `UI.updateStats(textAreaId, statsId)`: writes
`Characters: <len> | Words: <count>` into the stats element; a no-op when
either element is absent. -/
def updateStats (textAreaId statsId : String) (d : Dom) : Dom :=
  match getElementById d textAreaId, getElementById d statsId with
  | some textArea, some _ =>
    let text := textArea.value
    let charCount := text.length
    let wordCount := wordCountOf text
    updateElem d statsId (fun s =>
      { s with textContent :=
          "Characters: " ++ toString charCount ++ " | Words: " ++ toString wordCount })
  | _, _ => d

/-- `UI.showLoading(buttonId, spinnerId)`.  The source reads
`button.querySelector('.btn-text')` BEFORE the `if (button && spinner)` null
check, so a missing button element raises a `TypeError` (embedded as
`.error ()`); with the button present but the spinner missing the guard makes
it a no-op. -/
def showLoading (buttonId spinnerId : String) (d : Dom) : Except Unit Dom :=
  match getElementById d buttonId with
  | none => .error ()
  | some button =>
    let btnText := button.btnTextOpacity
    match getElementById d spinnerId with
    | none => .ok d
    | some _ =>
      let d := updateElem d buttonId (fun b => { b with disabled := true })
      let d := updateElem d spinnerId (fun s => addClass s "active")
      let d := if btnText.isSome then
                 updateElem d buttonId (fun b => { b with btnTextOpacity := some "0.7" })
               else d
      .ok d

/-- `UI.hideLoading(buttonId, spinnerId)`: same structure (and the same
early `button.querySelector` dereference) as `showLoading`, restoring the
enabled/idle visual state. -/
def hideLoading (buttonId spinnerId : String) (d : Dom) : Except Unit Dom :=
  match getElementById d buttonId with
  | none => .error ()
  | some button =>
    let btnText := button.btnTextOpacity
    match getElementById d spinnerId with
    | none => .ok d
    | some _ =>
      let d := updateElem d buttonId (fun b => { b with disabled := false })
      let d := updateElem d spinnerId (fun s => removeClass s "active")
      let d := if btnText.isSome then
                 updateElem d buttonId (fun b => { b with btnTextOpacity := some "1" })
               else d
      .ok d

/-- `UI.showStatus(message, type, duration)`: a no-op when the status bar or
message element is absent; otherwise resets the bar's state classes, writes
the message, tags the bar with the type class and shows it.  The `duration`
auto-hide timer is a deferred callback outside this model. -/
def showStatus (message msgType : String) (duration : Nat) (d : Dom) : Dom :=
  match getElementById d "statusBar", getElementById d "statusMessage" with
  | some _, some _ =>
    let d := updateElem d "statusBar" (fun b =>
      removeClass (removeClass (removeClass b "success") "error") "show")
    let d := updateElem d "statusMessage" (fun m => { m with textContent := message })
    let d := if msgType == "success" then
               updateElem d "statusBar" (fun b => addClass b "success")
             else if msgType == "error" then
               updateElem d "statusBar" (fun b => addClass b "error")
             else d
    updateElem d "statusBar" (fun b => addClass b "show")
  | _, _ => d

/-- `UI.populateLanguageDropdown`'s `forEach` loop: builds the `<option>`
list, skipping the `auto` record when `excludeAuto` is set. -/
def buildOptions (languages : List Language) (excludeAuto : Bool) :
    List (String × String) :=
  languages.foldl (fun acc lang =>
    if excludeAuto && lang.code == "auto" then acc
    else acc ++ [(lang.code, lang.name ++ " (" ++ lang.native ++ ")")]) []

/-- `UI.populateLanguageDropdown(selectId, languages, excludeAuto)`: a no-op
when the select is absent; otherwise clears it (`innerHTML = ''`) and appends
one option per language record, skipping `auto` when `excludeAuto`. -/
def populateLanguageDropdown (selectId : String) (languages : List Language)
    (excludeAuto : Bool) (d : Dom) : Dom :=
  match getElementById d selectId with
  | none => d
  | some _ => updateElem d selectId (fun s =>
      { s with options := buildOptions languages excludeAuto })

/-- `UI.updateOutputButtons(hasText)`: sets `disabled = !hasText` on each of
the copy/download buttons that is present. -/
def updateOutputButtons (hasText : Bool) (d : Dom) : Dom :=
  let d := match getElementById d "copyOutput" with
    | some _ => updateElem d "copyOutput" (fun e => { e with disabled := !hasText })
    | none => d
  match getElementById d "downloadOutput" with
  | some _ => updateElem d "downloadOutput" (fun e => { e with disabled := !hasText })
  | none => d

/-- `UI.swapLanguages()`: a no-op when either select is absent; refuses (with
an error status) when the source is `auto`; otherwise exchanges the two
values. -/
def swapLanguages (d : Dom) : Dom :=
  match getElementById d "sourceLanguage", getElementById d "targetLanguage" with
  | some sourceSelect, some targetSelect =>
    if sourceSelect.value == "auto" then
      showStatus "Cannot swap with auto-detect" "error" 2000 d
    else
      let temp := sourceSelect.value
      let d := updateElem d "sourceLanguage" (fun e => { e with value := targetSelect.value })
      let d := updateElem d "targetLanguage" (fun e => { e with value := temp })
      showStatus "Languages swapped" "success" 1500 d
  | _, _ => d

/-- `UI.getRadioValue(name)`: the value of the checked member of the radio
group, or `null` when none is checked. -/
def getRadioValue (name : String) (d : Dom) : Option String :=
  (d.radios.find? (fun p => p.1 == name)).map (fun p => p.2)

/-- `UI.validateInput(text, minLength)`: returns the boolean the caller must
check, alongside the document (a failure shows its status message). -/
def validateInput (text : String) (minLength : Nat) (d : Dom) : Bool × Dom :=
  if jsTrim text == "" then
    (false, showStatus "Please enter some text" "error" 3000 d)
  else if (jsTrim text).length < minLength then
    (false, showStatus ("Text must be at least " ++ toString minLength ++ " characters")
      "error" 3000 d)
  else
    (true, d)

end UI

/-- `x || dflt` for a possibly-null JS string `x`: the default is taken both
when `x` is `null` and when it is the (falsy) empty string. -/
def orDefault (x : Option String) (dflt : String) : String :=
  match x with
  | some s => if s == "" then dflt else s
  | none => dflt

namespace App

/-- `App.state`: the controller's session state. -/
structure AppState where
  languages : List Language := []
  currentInputText : String := ""
  currentOutputText : String := ""
deriving DecidableEq, Repr

/-- The body `{text, source, target, model}` passed to `API.translate`. -/
structure TranslateRequest where
  text : String
  source : String
  target : String
  model : String
deriving DecidableEq, Repr

/-- The body `{text, model, length, format}` passed to `API.summarize`. -/
structure SummarizeRequest where
  text : String
  model : String
  length : String
  format : String
deriving DecidableEq, Repr

/-- `App.loadLanguages()`: on a success response carrying a `languages`
property, stores the list and populates both selectors (the target one with
`excludeAuto = true`); otherwise shows an error status.  `API.getLanguages`
never throws (it normalizes failures), so the `catch` branch is dead here. -/
def loadLanguages (d : Dom) (st : AppState) (response : LanguagesResponse) :
    Dom × AppState :=
  if response.success && response.languages.isSome then
    let langs := response.languages.getD []
    let st := { st with languages := langs }
    let d := UI.populateLanguageDropdown "sourceLanguage" langs false d
    let d := UI.populateLanguageDropdown "targetLanguage" langs true d
    (d, st)
  else
    (UI.showStatus "Failed to load languages" "error" 3000 d, st)

/-- `App.handleTranslate()`.  `response` is the backend's answer to the
translate request, were one issued; the returned `Option TranslateRequest`
records the request actually passed to the transport client (`none` when the
function returns before, or throws instead of, issuing one).  The `try` block
dereferences `sourceLanguage.value` etc. while building the request, so a
missing select raises a `TypeError` that the `catch` turns into an error
status; the `finally` always runs `hideLoading`. -/
def handleTranslate (d : Dom) (st : AppState) (response : ApiResponse) :
    Except Unit (Dom × AppState × Option TranslateRequest) :=
  match getElementById d "inputText", getElementById d "outputText" with
  | some inputText, some _ =>
    let text := jsTrim inputText.value
    let (ok, d) := UI.validateInput text 1 d
    if !ok then .ok (d, st, none)
    else
      match UI.showLoading "translateBtn" "translateSpinner" d with
      | .error e => .error e
      | .ok d =>
        let d := UI.showStatus "Translating..." "info" 0 d
        let (d, st, req) :=
          match getElementById d "sourceLanguage", getElementById d "targetLanguage",
                getElementById d "translationModel" with
          | some sourceLanguage, some targetLanguage, some translationModel =>
            let req : TranslateRequest :=
              { text := text, source := sourceLanguage.value,
                target := targetLanguage.value, model := translationModel.value }
            if response.success then
              let d := updateElem d "outputText" (fun e =>
                { e with value := response.translated_text })
              let st := { st with currentOutputText := response.translated_text }
              let d := UI.updateStats "outputText" "outputStats" d
              let d := UI.updateOutputButtons true d
              let d := UI.showStatus ("✓ Translated in " ++ response.processing_time ++ "s")
                "success" 3000 d
              (d, st, some req)
            else
              let d := updateElem d "outputText" (fun e => { e with value := "" })
              let d := UI.showStatus (response.error.getD "Translation failed") "error" 5000 d
              (d, st, some req)
          | _, _, _ =>
            (UI.showStatus "An error occurred during translation" "error" 3000 d, st, none)
        (UI.hideLoading "translateBtn" "translateSpinner" d).map (fun d2 => (d2, st, req))
  | _, _ => .ok (d, st, none)

/-- `App.handleSummarize()`: same conventions as `handleTranslate`.  The
source text comes from the `summarySource` radio choice; on the `translated`
choice a validation failure is followed by the distinct
`Please translate text first or select "Original Text"` status (overwriting
the message `validateInput` itself showed). -/
def handleSummarize (d : Dom) (st : AppState) (response : ApiResponse) :
    Except Unit (Dom × AppState × Option SummarizeRequest) :=
  match getElementById d "inputText", getElementById d "outputText" with
  | some inputText, some outputText =>
    let length := orDefault (UI.getRadioValue "summaryLength" d) "short"
    let format := orDefault (UI.getRadioValue "summaryFormat" d) "paragraph"
    let source := orDefault (UI.getRadioValue "summarySource" d) "original"
    let checked : Except Dom (String × Dom) :=
      if source == "translated" then
        let text := jsTrim outputText.value
        let (ok, d) := UI.validateInput text 50 d
        if !ok then
          .error (UI.showStatus "Please translate text first or select \"Original Text\""
            "error" 3000 d)
        else .ok (text, d)
      else
        let text := jsTrim inputText.value
        let (ok, d) := UI.validateInput text 50 d
        if !ok then
          .error (UI.showStatus "Text must be at least 50 characters for summarization"
            "error" 3000 d)
        else .ok (text, d)
    match checked with
    | .error d => .ok (d, st, none)
    | .ok (text, d) =>
      match UI.showLoading "summarizeBtn" "summarizeSpinner" d with
      | .error e => .error e
      | .ok d =>
        let d := UI.showStatus "Summarizing..." "info" 0 d
        let (d, st, req) :=
          match getElementById d "summaryModel" with
          | some summaryModel =>
            let req : SummarizeRequest :=
              { text := text, model := summaryModel.value, length := length, format := format }
            if response.success then
              let d := updateElem d "outputText" (fun e => { e with value := response.summary })
              let st := { st with currentOutputText := response.summary }
              let d := UI.updateStats "outputText" "outputStats" d
              let d := UI.updateOutputButtons true d
              let d := UI.showStatus ("✓ Summarized in " ++ response.processing_time ++ "s")
                "success" 3000 d
              (d, st, some req)
            else
              (UI.showStatus (response.error.getD "Summarization failed") "error" 5000 d,
                st, some req)
          | none =>
            (UI.showStatus "An error occurred during summarization" "error" 3000 d, st, none)
        (UI.hideLoading "summarizeBtn" "summarizeSpinner" d).map (fun d2 => (d2, st, req))
  | _, _ => .ok (d, st, none)

end App

/-! ### Basic lemmas about the DOM embedding -/

theorem find?_map_keep (l : List (String × Elem)) (g : String × Elem → String × Elem)
    (hg : ∀ p, (g p).1 = p.1) (id : String) :
    (l.map g).find? (fun p => p.1 == id) = (l.find? (fun p => p.1 == id)).map g := by
  induction l with
  | nil => rfl
  | cons p l ih =>
    rw [List.map_cons, List.find?_cons, List.find?_cons]
    cases h : (p.1 == id) with
    | true => rw [hg p, h]; rfl
    | false => rw [hg p, h]; exact ih

theorem getElementById_updateElem_self (d : Dom) (id : String) (f : Elem → Elem) :
    getElementById (updateElem d id f) id = (getElementById d id).map f := by
  unfold getElementById updateElem
  rw [find?_map_keep _ _ (fun p => by split <;> rfl)]
  cases h : d.elems.find? (fun p => p.1 == id) with
  | none => rfl
  | some p =>
    have hp := List.find?_some h
    show some (if p.1 == id then (p.1, f p.2) else p).2 = some (f p.2)
    rw [if_pos hp]

theorem getElementById_updateElem_ne (d : Dom) (id id' : String) (f : Elem → Elem)
    (h : id' ≠ id) :
    getElementById (updateElem d id f) id' = getElementById d id' := by
  unfold getElementById updateElem
  rw [find?_map_keep _ _ (fun p => by split <;> rfl)]
  cases hf : d.elems.find? (fun p => p.1 == id') with
  | none => rfl
  | some p =>
    have hp := List.find?_some hf
    show some (if p.1 == id then (p.1, f p.2) else p).2 = some p.2
    rw [if_neg]
    intro hc
    exact h ((beq_iff_eq.mp hp).symm.trans (beq_iff_eq.mp hc))

theorem isSome_getElementById_updateElem (d : Dom) (id id' : String) (f : Elem → Elem) :
    (getElementById (updateElem d id f) id').isSome = (getElementById d id').isSome := by
  by_cases h : id' = id
  · subst h; rw [getElementById_updateElem_self]; cases getElementById d id' <;> rfl
  · rw [getElementById_updateElem_ne _ _ _ _ h]

theorem getElementById_ite (c : Prop) [Decidable c] (a b : Dom) (id : String) :
    getElementById (if c then a else b) id =
      if c then getElementById a id else getElementById b id := by
  split <;> rfl

/-! ### Frame and effect lemmas for the presentation helpers -/

theorem showStatus_frame (m ty : String) (dur : Nat) (d : Dom) (id : String)
    (h1 : id ≠ "statusBar") (h2 : id ≠ "statusMessage") :
    getElementById (UI.showStatus m ty dur d) id = getElementById d id := by
  have e1 : ∀ (d : Dom) f, getElementById (updateElem d "statusBar" f) id = getElementById d id :=
    fun d f => getElementById_updateElem_ne d _ id f h1
  have e2 : ∀ (d : Dom) f,
      getElementById (updateElem d "statusMessage" f) id = getElementById d id :=
    fun d f => getElementById_updateElem_ne d _ id f h2
  unfold UI.showStatus
  cases hb : getElementById d "statusBar" with
  | none => rfl
  | some b =>
    cases hm : getElementById d "statusMessage" with
    | none => rfl
    | some mm =>
      simp only [e1, e2, getElementById_ite, ite_self]

theorem isSome_showStatus (m ty : String) (dur : Nat) (d : Dom) (id : String) :
    (getElementById (UI.showStatus m ty dur d) id).isSome =
      (getElementById d id).isSome := by
  unfold UI.showStatus
  cases hb : getElementById d "statusBar" with
  | none => rfl
  | some b =>
    cases hm : getElementById d "statusMessage" with
    | none => rfl
    | some mm =>
      simp only [isSome_getElementById_updateElem, getElementById_ite,
        apply_ite Option.isSome, ite_self]

theorem showStatus_text (m ty : String) (dur : Nat) (d : Dom)
    (hb : (getElementById d "statusBar").isSome)
    (hm : (getElementById d "statusMessage").isSome) :
    elemText (UI.showStatus m ty dur d) "statusMessage" = some m := by
  obtain ⟨b, hb⟩ := Option.isSome_iff_exists.mp hb
  obtain ⟨mm, hm⟩ := Option.isSome_iff_exists.mp hm
  unfold elemText UI.showStatus
  rw [hb, hm]
  have hne : ("statusMessage" : String) ≠ "statusBar" := by decide
  simp only [getElementById_updateElem_ne _ _ _ _ hne, getElementById_ite, ite_self,
    getElementById_updateElem_self]
  rw [hm]
  rfl

theorem validateInput_empty (t : String) (minLength : Nat) (d : Dom) (h : jsTrim t = "") :
    UI.validateInput t minLength d =
      (false, UI.showStatus "Please enter some text" "error" 3000 d) := by
  simp [UI.validateInput, h]

theorem validateInput_short (t : String) (minLength : Nat) (d : Dom)
    (h1 : jsTrim t ≠ "") (h2 : (jsTrim t).length < minLength) :
    UI.validateInput t minLength d =
      (false, UI.showStatus ("Text must be at least " ++ toString minLength ++ " characters")
        "error" 3000 d) := by
  simp [UI.validateInput, h1, h2]

theorem validateInput_ok (t : String) (minLength : Nat) (d : Dom)
    (h1 : jsTrim t ≠ "") (h2 : ¬ (jsTrim t).length < minLength) :
    UI.validateInput t minLength d = (true, d) := by
  simp [UI.validateInput, h1, h2]

theorem updateStats_frame (areaId statsId : String) (d : Dom) (id : String)
    (h : id ≠ statsId) :
    getElementById (UI.updateStats areaId statsId d) id = getElementById d id := by
  unfold UI.updateStats
  cases ha : getElementById d areaId with
  | none => rfl
  | some a =>
    cases hs : getElementById d statsId with
    | none => rfl
    | some s => exact getElementById_updateElem_ne _ _ _ _ h

theorem isSome_updateStats (areaId statsId : String) (d : Dom) (id : String) :
    (getElementById (UI.updateStats areaId statsId d) id).isSome =
      (getElementById d id).isSome := by
  unfold UI.updateStats
  cases ha : getElementById d areaId with
  | none => rfl
  | some a =>
    cases hs : getElementById d statsId with
    | none => rfl
    | some s => exact isSome_getElementById_updateElem _ _ _ _

theorem updateStats_text (areaId statsId : String) (d : Dom) (area : Elem)
    (ha : getElementById d areaId = some area)
    (hs : (getElementById d statsId).isSome) :
    elemText (UI.updateStats areaId statsId d) statsId =
      some ("Characters: " ++ toString area.value.length ++ " | Words: " ++
        toString (UI.wordCountOf area.value)) := by
  obtain ⟨s, hs⟩ := Option.isSome_iff_exists.mp hs
  unfold elemText UI.updateStats
  rw [ha, hs, getElementById_updateElem_self, hs]
  rfl

theorem updateOutputButtons_frame (hasText : Bool) (d : Dom) (id : String)
    (h1 : id ≠ "copyOutput") (h2 : id ≠ "downloadOutput") :
    getElementById (UI.updateOutputButtons hasText d) id = getElementById d id := by
  unfold UI.updateOutputButtons
  have step : ∀ (d' : Dom), getElementById
      (match getElementById d' "downloadOutput" with
        | some _ => updateElem d' "downloadOutput" (fun e => { e with disabled := !hasText })
        | none => d') id = getElementById d' id := by
    intro d'
    cases hd : getElementById d' "downloadOutput" with
    | none => rfl
    | some _ => exact getElementById_updateElem_ne _ _ _ _ h2
  cases hc : getElementById d "copyOutput" with
  | none => exact step d
  | some _ => rw [step _]; exact getElementById_updateElem_ne _ _ _ _ h1

theorem isSome_updateOutputButtons (hasText : Bool) (d : Dom) (id : String) :
    (getElementById (UI.updateOutputButtons hasText d) id).isSome =
      (getElementById d id).isSome := by
  unfold UI.updateOutputButtons
  have step : ∀ (d' : Dom), (getElementById
      (match getElementById d' "downloadOutput" with
        | some _ => updateElem d' "downloadOutput" (fun e => { e with disabled := !hasText })
        | none => d') id).isSome = (getElementById d' id).isSome := by
    intro d'
    cases hd : getElementById d' "downloadOutput" with
    | none => rfl
    | some _ => exact isSome_getElementById_updateElem _ _ _ _
  cases hc : getElementById d "copyOutput" with
  | none => exact step d
  | some _ => rw [step _]; exact isSome_getElementById_updateElem _ _ _ _

theorem updateOutputButtons_disabled (hasText : Bool) (d : Dom)
    (hc : (getElementById d "copyOutput").isSome)
    (hd : (getElementById d "downloadOutput").isSome) :
    elemDisabled (UI.updateOutputButtons hasText d) "copyOutput" = some (!hasText) ∧
    elemDisabled (UI.updateOutputButtons hasText d) "downloadOutput" = some (!hasText) := by
  obtain ⟨c, hc⟩ := Option.isSome_iff_exists.mp hc
  obtain ⟨dl, hd⟩ := Option.isSome_iff_exists.mp hd
  have hne : ("copyOutput" : String) ≠ "downloadOutput" := by decide
  unfold elemDisabled UI.updateOutputButtons
  rw [hc]
  have hd2 : getElementById (updateElem d "copyOutput"
      (fun e => { e with disabled := !hasText })) "downloadOutput" = some dl := by
    rw [getElementById_updateElem_ne _ _ _ _ hne.symm, hd]
  dsimp only
  rw [hd2]
  constructor
  · rw [getElementById_updateElem_ne _ _ _ _ hne, getElementById_updateElem_self, hc]
    rfl
  · rw [getElementById_updateElem_self, hd2]
    rfl

theorem populateLanguageDropdown_frame (selectId : String) (ls : List Language) (ex : Bool)
    (d : Dom) (id : String) (h : id ≠ selectId) :
    getElementById (UI.populateLanguageDropdown selectId ls ex d) id = getElementById d id := by
  unfold UI.populateLanguageDropdown
  cases hs : getElementById d selectId with
  | none => rfl
  | some s => exact getElementById_updateElem_ne _ _ _ _ h

theorem populateLanguageDropdown_options (selectId : String) (ls : List Language) (ex : Bool)
    (d : Dom) (hs : (getElementById d selectId).isSome) :
    (getElementById (UI.populateLanguageDropdown selectId ls ex d) selectId).map Elem.options =
      some (UI.buildOptions ls ex) := by
  obtain ⟨s, hs⟩ := Option.isSome_iff_exists.mp hs
  unfold UI.populateLanguageDropdown
  rw [hs, getElementById_updateElem_self, hs]
  rfl

theorem buildOptions_eq (ls : List Language) (ex : Bool) :
    UI.buildOptions ls ex =
      (ls.filter (fun l => !(ex && l.code == "auto"))).map
        (fun l => (l.code, l.name ++ " (" ++ l.native ++ ")")) := by
  have key : ∀ (acc : List (String × String)),
      ls.foldl (fun acc lang => if ex && lang.code == "auto" then acc
        else acc ++ [(lang.code, lang.name ++ " (" ++ lang.native ++ ")")]) acc =
      acc ++ (ls.filter (fun l => !(ex && l.code == "auto"))).map
        (fun l => (l.code, l.name ++ " (" ++ l.native ++ ")")) := by
    induction ls with
    | nil => intro acc; simp
    | cons l ls ih =>
      intro acc
      rw [List.foldl_cons, List.filter_cons]
      by_cases h : (ex && l.code == "auto") = true
      · rw [if_pos h, ih, h]
        rfl
      · rw [if_neg h, ih]
        have hb : (!(ex && l.code == "auto")) = true := by simp [h]
        rw [hb]
        simp
  exact key []

theorem swapLanguages_eq (d : Dom) (s t : Elem)
    (hs : getElementById d "sourceLanguage" = some s)
    (ht : getElementById d "targetLanguage" = some t)
    (hauto : s.value ≠ "auto") :
    UI.swapLanguages d = UI.showStatus "Languages swapped" "success" 1500
      (updateElem (updateElem d "sourceLanguage" (fun e => { e with value := t.value }))
        "targetLanguage" (fun e => { e with value := s.value })) := by
  unfold UI.swapLanguages
  rw [hs, ht]
  dsimp only
  rw [if_neg (by simp [hauto])]

theorem swapLanguages_auto (d : Dom) (s t : Elem)
    (hs : getElementById d "sourceLanguage" = some s)
    (ht : getElementById d "targetLanguage" = some t)
    (hauto : s.value = "auto") :
    UI.swapLanguages d = UI.showStatus "Cannot swap with auto-detect" "error" 2000 d := by
  unfold UI.swapLanguages
  rw [hs, ht]
  dsimp only
  rw [if_pos (by simp [hauto])]

theorem showLoading_missing_button (bId sId : String) (d : Dom)
    (h : getElementById d bId = none) :
    UI.showLoading bId sId d = .error () := by
  unfold UI.showLoading
  rw [h]

theorem string_length_pos_of_ne_empty (s : String) (h : s ≠ "") : 0 < s.length := by
  cases s with
  | mk data =>
    cases data with
    | nil => exact absurd rfl h
    | cons a l => simp [String.length]

theorem dropWhile_head?_false {α : Type} (p : α → Bool) (l : List α) (a : α)
    (h : (l.dropWhile p).head? = some a) : p a = false := by
  induction l with
  | nil => simp at h
  | cons b m ih =>
    rw [List.dropWhile_cons] at h
    split at h
    · exact ih h
    · next hb =>
      rw [List.head?_cons, Option.some.injEq] at h
      rw [← h]
      exact Bool.eq_false_iff.mpr hb

theorem dropWhile_eq_self_of_head? {α : Type} (p : α → Bool) (l : List α)
    (h : ∀ a, l.head? = some a → p a = false) : l.dropWhile p = l := by
  cases l with
  | nil => rfl
  | cons b m => simp [List.dropWhile_cons, h b rfl]

theorem exists_dropWhile_append {α : Type} (p : α → Bool) :
    ∀ l : List α, ∃ t, l = t ++ l.dropWhile p := by
  intro l
  induction l with
  | nil => exact ⟨[], rfl⟩
  | cons b m ih =>
    by_cases hb : p b = true
    · obtain ⟨t, ht⟩ := ih
      exact ⟨b :: t, by rw [List.dropWhile_cons_of_pos hb, List.cons_append, ← ht]⟩
    · exact ⟨[], by rw [List.dropWhile_cons_of_neg hb, List.nil_append]⟩

theorem getLast?_dropWhile {α : Type} (p : α → Bool) (l : List α) (a : α)
    (h : (l.dropWhile p).getLast? = some a) : l.getLast? = some a := by
  obtain ⟨t, ht⟩ := exists_dropWhile_append p l
  rw [ht, List.getLast?_append, h]
  rfl

theorem jsTrim_idem (s : String) : jsTrim (jsTrim s) = jsTrim s := by
  unfold jsTrim
  dsimp only
  have hT : (((s.data.dropWhile Char.isWhitespace).reverse.dropWhile
        Char.isWhitespace).reverse).dropWhile Char.isWhitespace =
      ((s.data.dropWhile Char.isWhitespace).reverse.dropWhile Char.isWhitespace).reverse := by
    apply dropWhile_eq_self_of_head?
    intro a ha
    rw [List.head?_reverse] at ha
    have h2 := getLast?_dropWhile _ _ _ ha
    rw [List.getLast?_reverse] at h2
    exact dropWhile_head?_false _ _ _ h2
  rw [hT, List.reverse_reverse]
  have hB : ((s.data.dropWhile Char.isWhitespace).reverse.dropWhile
        Char.isWhitespace).dropWhile Char.isWhitespace =
      (s.data.dropWhile Char.isWhitespace).reverse.dropWhile Char.isWhitespace := by
    apply dropWhile_eq_self_of_head?
    intro a ha
    exact dropWhile_head?_false _ _ _ ha
  rw [hB]

theorem showLoading_eq (bId sId : String) (d : Dom) (be se : Elem)
    (hb : getElementById d bId = some be) (hs : getElementById d sId = some se) :
    UI.showLoading bId sId d = .ok (
      if be.btnTextOpacity.isSome then
        updateElem (updateElem (updateElem d bId (fun b => { b with disabled := true }))
          sId (fun s => addClass s "active")) bId
          (fun b => { b with btnTextOpacity := some "0.7" })
      else updateElem (updateElem d bId (fun b => { b with disabled := true }))
        sId (fun s => addClass s "active")) := by
  unfold UI.showLoading
  rw [hb, hs]

theorem isSome_showLoading (bId sId : String) (d d2 : Dom)
    (h : UI.showLoading bId sId d = .ok d2) (id : String) :
    (getElementById d2 id).isSome = (getElementById d id).isSome := by
  unfold UI.showLoading at h
  cases hb : getElementById d bId with
  | none => rw [hb] at h; cases h
  | some be =>
    rw [hb] at h
    cases hs : getElementById d sId with
    | none => rw [hs] at h; cases h; rfl
    | some se =>
      rw [hs] at h
      dsimp only at h
      cases h
      simp only [getElementById_ite, apply_ite Option.isSome,
        isSome_getElementById_updateElem, ite_self]

theorem showLoading_frame (bId sId : String) (d d2 : Dom)
    (h : UI.showLoading bId sId d = .ok d2) (id : String) (h1 : id ≠ bId) (h2 : id ≠ sId) :
    getElementById d2 id = getElementById d id := by
  unfold UI.showLoading at h
  cases hb : getElementById d bId with
  | none => rw [hb] at h; cases h
  | some be =>
    rw [hb] at h
    cases hs : getElementById d sId with
    | none => rw [hs] at h; cases h; rfl
    | some se =>
      rw [hs] at h
      dsimp only at h
      cases h
      have e1 : ∀ (d : Dom) f, getElementById (updateElem d bId f) id = getElementById d id :=
        fun d f => getElementById_updateElem_ne d _ id f h1
      have e2 : ∀ (d : Dom) f, getElementById (updateElem d sId f) id = getElementById d id :=
        fun d f => getElementById_updateElem_ne d _ id f h2
      simp only [getElementById_ite, e1, e2, ite_self]

theorem hideLoading_resolves (bId sId : String) (d : Dom) (be se : Elem)
    (hb : getElementById d bId = some be) (hs : getElementById d sId = some se)
    (hne : bId ≠ sId) :
    ∃ d2, UI.hideLoading bId sId d = .ok d2 ∧
      elemDisabled d2 bId = some false ∧
      (∃ sp, getElementById d2 sId = some sp ∧ "active" ∉ sp.classes) ∧
      (∀ id, id ≠ bId → id ≠ sId → getElementById d2 id = getElementById d id) := by
  unfold UI.hideLoading
  rw [hb, hs]
  dsimp only
  refine ⟨_, rfl, ?_, ?_, ?_⟩
  · unfold elemDisabled
    have h1 : getElementById (updateElem d bId (fun b => { b with disabled := false }))
        bId = some { be with disabled := false } := by
      rw [getElementById_updateElem_self, hb]; rfl
    have h2 : getElementById (updateElem (updateElem d bId
        (fun b => { b with disabled := false })) sId (fun s => removeClass s "active"))
        bId = some { be with disabled := false } := by
      rw [getElementById_updateElem_ne _ _ _ _ hne, h1]
    by_cases hbt : be.btnTextOpacity.isSome
    · rw [if_pos hbt, getElementById_updateElem_self, h2]
      rfl
    · rw [if_neg hbt, h2]
      rfl
  · have h1 : getElementById (updateElem d bId (fun b => { b with disabled := false }))
        sId = some se := by
      rw [getElementById_updateElem_ne _ _ _ _ hne.symm, hs]
    have h2 : getElementById (updateElem (updateElem d bId
        (fun b => { b with disabled := false })) sId (fun s => removeClass s "active"))
        sId = some (removeClass se "active") := by
      rw [getElementById_updateElem_self, h1]
      rfl
    have hmem : "active" ∉ (removeClass se "active").classes := by
      simp [removeClass]
    by_cases hbt : be.btnTextOpacity.isSome
    · refine ⟨removeClass se "active", ?_, hmem⟩
      rw [if_pos hbt, getElementById_updateElem_ne _ _ _ _ hne.symm, h2]
    · refine ⟨removeClass se "active", ?_, hmem⟩
      rw [if_neg hbt, h2]
  · intro id h1 h2
    have e1 : ∀ (d : Dom) f, getElementById (updateElem d bId f) id = getElementById d id :=
      fun d f => getElementById_updateElem_ne d _ id f h1
    have e2 : ∀ (d : Dom) f, getElementById (updateElem d sId f) id = getElementById d id :=
      fun d f => getElementById_updateElem_ne d _ id f h2
    simp only [getElementById_ite, e1, e2, ite_self]

/-- The `finally`-equivalent tail of both handlers: once the body has produced
some document in which the button and spinner still exist, `hideLoading`
succeeds and leaves the button enabled and the spinner inactive. -/
theorem finishAction {α : Type} (bId sId : String) (X : Dom) (st : App.AppState) (req : α)
    (hne : bId ≠ sId)
    (hbX : (getElementById X bId).isSome) (hsX : (getElementById X sId).isSome) :
    ∃ d' st' req', (UI.hideLoading bId sId X).map
        (fun d2 => (d2, st, req)) = .ok (d', st', req') ∧
      elemDisabled d' bId = some false ∧
      (∃ sp, getElementById d' sId = some sp ∧ "active" ∉ sp.classes) := by
  obtain ⟨be, hbe⟩ := Option.isSome_iff_exists.mp hbX
  obtain ⟨se, hse⟩ := Option.isSome_iff_exists.mp hsX
  obtain ⟨d2, hrun, hdis, hspin, _⟩ := hideLoading_resolves _ _ _ _ _ hbe hse hne
  exact ⟨d2, st, req, by rw [hrun]; rfl, hdis, hspin⟩

/-- Every exit path of `handleTranslate` that passes `showLoading` (so the
Loading visual state was actually entered) ends with the button re-enabled and
the spinner's `active` class removed, whatever the backend's response and
whether or not the remaining selects exist (the thrown-`TypeError` path
included). -/
theorem handleTranslate_idle (d : Dom) (st : App.AppState) (response : ApiResponse)
    (inp : Elem)
    (hin : getElementById d "inputText" = some inp)
    (hout : (getElementById d "outputText").isSome)
    (valid : jsTrim inp.value ≠ "")
    (hb : (getElementById d "translateBtn").isSome)
    (hsp : (getElementById d "translateSpinner").isSome) :
    ∃ d' st' req, App.handleTranslate d st response = .ok (d', st', req) ∧
      elemDisabled d' "translateBtn" = some false ∧
      (∃ sp, getElementById d' "translateSpinner" = some sp ∧ "active" ∉ sp.classes) := by
  obtain ⟨out, hout⟩ := Option.isSome_iff_exists.mp hout
  obtain ⟨btn, hb⟩ := Option.isSome_iff_exists.mp hb
  obtain ⟨spn, hsp⟩ := Option.isSome_iff_exists.mp hsp
  have hvalid2 : jsTrim (jsTrim inp.value) ≠ "" := by
    rw [jsTrim_idem]; exact valid
  have hlen : ¬ (jsTrim (jsTrim inp.value)).length < 1 := by
    rw [jsTrim_idem]
    exact Nat.not_lt.mpr (string_length_pos_of_ne_empty _ valid)
  obtain ⟨D1, hD1⟩ : ∃ D1, UI.showLoading "translateBtn" "translateSpinner" d = .ok D1 :=
    ⟨_, showLoading_eq _ _ _ _ _ hb hsp⟩
  have hbtn1 : ∀ (D : Dom), (getElementById D "translateBtn").isSome =
      (getElementById d "translateBtn").isSome → (getElementById D "translateBtn").isSome := by
    intro D hD; rw [hD, hb]; rfl
  unfold App.handleTranslate
  rw [hin, hout]
  dsimp only
  rw [validateInput_ok _ _ _ hvalid2 hlen]
  dsimp only
  rw [if_neg (by decide), hD1]
  dsimp only
  cases hs1 : getElementById (UI.showStatus "Translating..." "info" 0 D1) "sourceLanguage" with
  | none =>
    dsimp only
    apply finishAction _ _ _ _ _ (by decide) <;>
      · simp only [isSome_showStatus]
        rw [isSome_showLoading _ _ _ _ hD1]
        first
        | (rw [hb]; rfl)
        | (rw [hsp]; rfl)
  | some src =>
    cases hs2 : getElementById (UI.showStatus "Translating..." "info" 0 D1) "targetLanguage" with
    | none =>
      dsimp only
      apply finishAction _ _ _ _ _ (by decide) <;>
        · simp only [isSome_showStatus]
          rw [isSome_showLoading _ _ _ _ hD1]
          first
          | (rw [hb]; rfl)
          | (rw [hsp]; rfl)
    | some tgt =>
      cases hs3 : getElementById (UI.showStatus "Translating..." "info" 0 D1)
          "translationModel" with
      | none =>
        dsimp only
        apply finishAction _ _ _ _ _ (by decide) <;>
          · simp only [isSome_showStatus]
            rw [isSome_showLoading _ _ _ _ hD1]
            first
            | (rw [hb]; rfl)
            | (rw [hsp]; rfl)
      | some mdl =>
        cases hresp : response.success with
        | true =>
          dsimp only
          rw [if_pos rfl]
          dsimp only
          apply finishAction _ _ _ _ _ (by decide) <;>
            · simp only [isSome_showStatus, isSome_updateOutputButtons, isSome_updateStats,
                isSome_getElementById_updateElem]
              rw [isSome_showLoading _ _ _ _ hD1]
              first
              | (rw [hb]; rfl)
              | (rw [hsp]; rfl)
        | false =>
          dsimp only
          rw [if_neg (by decide)]
          dsimp only
          apply finishAction _ _ _ _ _ (by decide) <;>
            · simp only [isSome_showStatus, isSome_getElementById_updateElem]
              rw [isSome_showLoading _ _ _ _ hD1]
              first
              | (rw [hb]; rfl)
              | (rw [hsp]; rfl)

/-- Every exit path of `handleSummarize` that passes `showLoading` ends with
the summarize button re-enabled and its spinner's `active` class removed,
whatever the backend's response and whether or not `summaryModel` exists (the
thrown-`TypeError` path included). -/
theorem handleSummarize_idle (d : Dom) (st : App.AppState) (response : ApiResponse)
    (inp out : Elem)
    (hin : getElementById d "inputText" = some inp)
    (hout : getElementById d "outputText" = some out)
    (hb : (getElementById d "summarizeBtn").isSome)
    (hsp : (getElementById d "summarizeSpinner").isSome)
    (hvalid : if orDefault (UI.getRadioValue "summarySource" d) "original" == "translated"
      then jsTrim out.value ≠ "" ∧ ¬ (jsTrim out.value).length < 50
      else jsTrim inp.value ≠ "" ∧ ¬ (jsTrim inp.value).length < 50) :
    ∃ d' st' req, App.handleSummarize d st response = .ok (d', st', req) ∧
      elemDisabled d' "summarizeBtn" = some false ∧
      (∃ sp, getElementById d' "summarizeSpinner" = some sp ∧ "active" ∉ sp.classes) := by
  obtain ⟨btn, hb⟩ := Option.isSome_iff_exists.mp hb
  obtain ⟨spn, hsp⟩ := Option.isSome_iff_exists.mp hsp
  obtain ⟨D1, hD1⟩ : ∃ D1, UI.showLoading "summarizeBtn" "summarizeSpinner" d = .ok D1 :=
    ⟨_, showLoading_eq _ _ _ _ _ hb hsp⟩
  unfold App.handleSummarize
  rw [hin, hout]
  dsimp only
  by_cases hsrc : (orDefault (UI.getRadioValue "summarySource" d) "original" ==
      "translated") = true
  · rw [if_pos hsrc] at hvalid
    rw [if_pos hsrc]
    obtain ⟨hv, hl⟩ := hvalid
    have hv2 : jsTrim (jsTrim out.value) ≠ "" := by rw [jsTrim_idem]; exact hv
    have hl2 : ¬ (jsTrim (jsTrim out.value)).length < 50 := by rw [jsTrim_idem]; exact hl
    rw [validateInput_ok _ _ _ hv2 hl2]
    dsimp only
    rw [if_neg (by decide)]
    dsimp only
    rw [hD1]
    dsimp only
    cases hm : getElementById (UI.showStatus "Summarizing..." "info" 0 D1) "summaryModel" with
    | none =>
      dsimp only
      apply finishAction _ _ _ _ _ (by decide) <;>
        · simp only [isSome_showStatus]
          rw [isSome_showLoading _ _ _ _ hD1]
          first
          | (rw [hb]; rfl)
          | (rw [hsp]; rfl)
    | some mdl =>
      cases hresp : response.success with
      | true =>
        dsimp only
        rw [if_pos rfl]
        dsimp only
        apply finishAction _ _ _ _ _ (by decide) <;>
          · simp only [isSome_showStatus, isSome_updateOutputButtons, isSome_updateStats,
              isSome_getElementById_updateElem]
            rw [isSome_showLoading _ _ _ _ hD1]
            first
            | (rw [hb]; rfl)
            | (rw [hsp]; rfl)
      | false =>
        dsimp only
        rw [if_neg (by decide)]
        dsimp only
        apply finishAction _ _ _ _ _ (by decide) <;>
          · simp only [isSome_showStatus, isSome_getElementById_updateElem]
            rw [isSome_showLoading _ _ _ _ hD1]
            first
            | (rw [hb]; rfl)
            | (rw [hsp]; rfl)
  · rw [if_neg hsrc] at hvalid
    rw [if_neg hsrc]
    obtain ⟨hv, hl⟩ := hvalid
    have hv2 : jsTrim (jsTrim inp.value) ≠ "" := by rw [jsTrim_idem]; exact hv
    have hl2 : ¬ (jsTrim (jsTrim inp.value)).length < 50 := by rw [jsTrim_idem]; exact hl
    rw [validateInput_ok _ _ _ hv2 hl2]
    dsimp only
    rw [if_neg (by decide)]
    dsimp only
    rw [hD1]
    dsimp only
    cases hm : getElementById (UI.showStatus "Summarizing..." "info" 0 D1) "summaryModel" with
    | none =>
      dsimp only
      apply finishAction _ _ _ _ _ (by decide) <;>
        · simp only [isSome_showStatus]
          rw [isSome_showLoading _ _ _ _ hD1]
          first
          | (rw [hb]; rfl)
          | (rw [hsp]; rfl)
    | some mdl =>
      cases hresp : response.success with
      | true =>
        dsimp only
        rw [if_pos rfl]
        dsimp only
        apply finishAction _ _ _ _ _ (by decide) <;>
          · simp only [isSome_showStatus, isSome_updateOutputButtons, isSome_updateStats,
              isSome_getElementById_updateElem]
            rw [isSome_showLoading _ _ _ _ hD1]
            first
            | (rw [hb]; rfl)
            | (rw [hsp]; rfl)
      | false =>
        dsimp only
        rw [if_neg (by decide)]
        dsimp only
        apply finishAction _ _ _ _ _ (by decide) <;>
          · simp only [isSome_showStatus, isSome_getElementById_updateElem]
            rw [isSome_showLoading _ _ _ _ hD1]
            first
            | (rw [hb]; rfl)
            | (rw [hsp]; rfl)

/-- Full effect of `handleTranslate` once a backend response is received (all
involved elements present, validation passing): on success the output area,
output stats, session state and output buttons are updated; on failure the
output area is cleared while the output buttons and the session state are left
as they were. -/
theorem handleTranslate_response (d : Dom) (st : App.AppState) (response : ApiResponse)
    (inp out : Elem)
    (hin : getElementById d "inputText" = some inp)
    (hout : getElementById d "outputText" = some out)
    (valid : jsTrim inp.value ≠ "")
    (hb : (getElementById d "translateBtn").isSome)
    (hsp : (getElementById d "translateSpinner").isSome)
    (hsrc : (getElementById d "sourceLanguage").isSome)
    (htgt : (getElementById d "targetLanguage").isSome)
    (hmdl : (getElementById d "translationModel").isSome)
    (hstat : (getElementById d "outputStats").isSome)
    (hcopy : (getElementById d "copyOutput").isSome)
    (hdload : (getElementById d "downloadOutput").isSome) :
    ∃ d' st' req, App.handleTranslate d st response = .ok (d', st', req) ∧
      (response.success = true →
        st' = { st with currentOutputText := response.translated_text } ∧
        elemValue d' "outputText" = some response.translated_text ∧
        elemText d' "outputStats" = some ("Characters: " ++
          toString response.translated_text.length ++ " | Words: " ++
          toString (UI.wordCountOf response.translated_text)) ∧
        elemDisabled d' "copyOutput" = some false ∧
        elemDisabled d' "downloadOutput" = some false) ∧
      (response.success = false →
        st' = st ∧
        elemValue d' "outputText" = some "" ∧
        elemDisabled d' "copyOutput" = elemDisabled d "copyOutput" ∧
        elemDisabled d' "downloadOutput" = elemDisabled d "downloadOutput") := by
  obtain ⟨btn, hb⟩ := Option.isSome_iff_exists.mp hb
  obtain ⟨spn, hsp⟩ := Option.isSome_iff_exists.mp hsp
  obtain ⟨srcE, hsrcE⟩ := Option.isSome_iff_exists.mp hsrc
  obtain ⟨tgtE, htgtE⟩ := Option.isSome_iff_exists.mp htgt
  obtain ⟨mdlE, hmdlE⟩ := Option.isSome_iff_exists.mp hmdl
  have hvalid2 : jsTrim (jsTrim inp.value) ≠ "" := by
    rw [jsTrim_idem]; exact valid
  have hlen : ¬ (jsTrim (jsTrim inp.value)).length < 1 := by
    rw [jsTrim_idem]
    exact Nat.not_lt.mpr (string_length_pos_of_ne_empty _ valid)
  obtain ⟨D1, hD1⟩ : ∃ D1, UI.showLoading "translateBtn" "translateSpinner" d = .ok D1 :=
    ⟨_, showLoading_eq _ _ _ _ _ hb hsp⟩
  have hout0 : getElementById (UI.showStatus "Translating..." "info" 0 D1) "outputText" =
      some out := by
    rw [showStatus_frame _ _ _ _ _ (by decide) (by decide),
      showLoading_frame _ _ _ _ hD1 _ (by decide) (by decide), hout]
  have hsrc1 : getElementById (UI.showStatus "Translating..." "info" 0 D1) "sourceLanguage" =
      some srcE := by
    rw [showStatus_frame _ _ _ _ _ (by decide) (by decide),
      showLoading_frame _ _ _ _ hD1 _ (by decide) (by decide), hsrcE]
  have htgt1 : getElementById (UI.showStatus "Translating..." "info" 0 D1) "targetLanguage" =
      some tgtE := by
    rw [showStatus_frame _ _ _ _ _ (by decide) (by decide),
      showLoading_frame _ _ _ _ hD1 _ (by decide) (by decide), htgtE]
  have hmdl1 : getElementById (UI.showStatus "Translating..." "info" 0 D1) "translationModel" =
      some mdlE := by
    rw [showStatus_frame _ _ _ _ _ (by decide) (by decide),
      showLoading_frame _ _ _ _ hD1 _ (by decide) (by decide), hmdlE]
  unfold App.handleTranslate
  rw [hin, hout]
  dsimp only
  rw [validateInput_ok _ _ _ hvalid2 hlen]
  dsimp only
  rw [if_neg (by decide), hD1]
  dsimp only
  rw [hsrc1, htgt1, hmdl1]
  dsimp only
  cases hresp : response.success with
  | true =>
    rw [if_pos rfl]
    set E1 := updateElem (UI.showStatus "Translating..." "info" 0 D1) "outputText"
      (fun e => { e with value := response.translated_text }) with hE1def
    set E2 := UI.updateStats "outputText" "outputStats" E1 with hE2def
    set E3 := UI.updateOutputButtons true E2 with hE3def
    set E4 := UI.showStatus ("✓ Translated in " ++ response.processing_time ++ "s")
      "success" 3000 E3 with hE4def
    dsimp only
    have hE1out : getElementById E1 "outputText" =
        some { out with value := response.translated_text } := by
      rw [hE1def, getElementById_updateElem_self, hout0]
      rfl
    have hstatE1 : (getElementById E1 "outputStats").isSome := by
      rw [hE1def, isSome_getElementById_updateElem, isSome_showStatus,
        isSome_showLoading _ _ _ _ hD1]
      exact hstat
    have htextE2 : elemText E2 "outputStats" = some ("Characters: " ++
        toString response.translated_text.length ++ " | Words: " ++
        toString (UI.wordCountOf response.translated_text)) := by
      rw [hE2def]
      have h := updateStats_text "outputText" "outputStats" E1 _ hE1out hstatE1
      simpa using h
    have hcopyE2 : (getElementById E2 "copyOutput").isSome := by
      rw [hE2def, isSome_updateStats, hE1def, isSome_getElementById_updateElem,
        isSome_showStatus, isSome_showLoading _ _ _ _ hD1]
      exact hcopy
    have hdlE2 : (getElementById E2 "downloadOutput").isSome := by
      rw [hE2def, isSome_updateStats, hE1def, isSome_getElementById_updateElem,
        isSome_showStatus, isSome_showLoading _ _ _ _ hD1]
      exact hdload
    have hbtnsE3 := updateOutputButtons_disabled true E2 hcopyE2 hdlE2
    have houtE4 : getElementById E4 "outputText" =
        some { out with value := response.translated_text } := by
      rw [hE4def, showStatus_frame _ _ _ _ _ (by decide) (by decide), hE3def,
        updateOutputButtons_frame _ _ _ (by decide) (by decide), hE2def,
        updateStats_frame _ _ _ _ (by decide), hE1out]
    have hbE4 : (getElementById E4 "translateBtn").isSome := by
      rw [hE4def, isSome_showStatus, hE3def, isSome_updateOutputButtons, hE2def,
        isSome_updateStats, hE1def, isSome_getElementById_updateElem, isSome_showStatus,
        isSome_showLoading _ _ _ _ hD1, hb]
      rfl
    have hspE4 : (getElementById E4 "translateSpinner").isSome := by
      rw [hE4def, isSome_showStatus, hE3def, isSome_updateOutputButtons, hE2def,
        isSome_updateStats, hE1def, isSome_getElementById_updateElem, isSome_showStatus,
        isSome_showLoading _ _ _ _ hD1, hsp]
      rfl
    obtain ⟨be, hbe⟩ := Option.isSome_iff_exists.mp hbE4
    obtain ⟨se, hse⟩ := Option.isSome_iff_exists.mp hspE4
    obtain ⟨d2, hrun, hdis, hspin, hframe⟩ :=
      hideLoading_resolves _ _ _ _ _ hbe hse (by decide)
    refine ⟨d2, { st with currentOutputText := response.translated_text },
      some ⟨jsTrim inp.value, srcE.value, tgtE.value, mdlE.value⟩, ?_, ?_, ?_⟩
    · rw [hrun]
      rfl
    · intro _
      refine ⟨rfl, ?_, ?_, ?_, ?_⟩
      · unfold elemValue
        rw [hframe _ (by decide) (by decide), houtE4]
        rfl
      · unfold elemText
        rw [hframe _ (by decide) (by decide), hE4def,
          showStatus_frame _ _ _ _ _ (by decide) (by decide), hE3def,
          updateOutputButtons_frame _ _ _ (by decide) (by decide)]
        exact htextE2
      · unfold elemDisabled
        rw [hframe _ (by decide) (by decide), hE4def,
          showStatus_frame _ _ _ _ _ (by decide) (by decide)]
        exact hbtnsE3.1
      · unfold elemDisabled
        rw [hframe _ (by decide) (by decide), hE4def,
          showStatus_frame _ _ _ _ _ (by decide) (by decide)]
        exact hbtnsE3.2
    · intro h
      exact Bool.noConfusion h
  | false =>
    rw [if_neg (by decide)]
    set E1 := updateElem (UI.showStatus "Translating..." "info" 0 D1) "outputText"
      (fun e => { e with value := "" }) with hE1def
    set E2 := UI.showStatus (response.error.getD "Translation failed") "error" 5000 E1
      with hE2def
    dsimp only
    have hE1out : getElementById E1 "outputText" = some { out with value := "" } := by
      rw [hE1def, getElementById_updateElem_self, hout0]
      rfl
    have houtE2 : getElementById E2 "outputText" = some { out with value := "" } := by
      rw [hE2def, showStatus_frame _ _ _ _ _ (by decide) (by decide), hE1out]
    have hcopyE2 : getElementById E2 "copyOutput" = getElementById d "copyOutput" := by
      rw [hE2def, showStatus_frame _ _ _ _ _ (by decide) (by decide), hE1def,
        getElementById_updateElem_ne _ _ _ _ (by decide),
        showStatus_frame _ _ _ _ _ (by decide) (by decide),
        showLoading_frame _ _ _ _ hD1 _ (by decide) (by decide)]
    have hdlE2 : getElementById E2 "downloadOutput" = getElementById d "downloadOutput" := by
      rw [hE2def, showStatus_frame _ _ _ _ _ (by decide) (by decide), hE1def,
        getElementById_updateElem_ne _ _ _ _ (by decide),
        showStatus_frame _ _ _ _ _ (by decide) (by decide),
        showLoading_frame _ _ _ _ hD1 _ (by decide) (by decide)]
    have hbE2 : (getElementById E2 "translateBtn").isSome := by
      rw [hE2def, isSome_showStatus, hE1def, isSome_getElementById_updateElem,
        isSome_showStatus, isSome_showLoading _ _ _ _ hD1, hb]
      rfl
    have hspE2 : (getElementById E2 "translateSpinner").isSome := by
      rw [hE2def, isSome_showStatus, hE1def, isSome_getElementById_updateElem,
        isSome_showStatus, isSome_showLoading _ _ _ _ hD1, hsp]
      rfl
    obtain ⟨be, hbe⟩ := Option.isSome_iff_exists.mp hbE2
    obtain ⟨se, hse⟩ := Option.isSome_iff_exists.mp hspE2
    obtain ⟨d2, hrun, hdis, hspin, hframe⟩ :=
      hideLoading_resolves _ _ _ _ _ hbe hse (by decide)
    refine ⟨d2, st, some ⟨jsTrim inp.value, srcE.value, tgtE.value, mdlE.value⟩,
      ?_, ?_, ?_⟩
    · rw [hrun]
      rfl
    · intro h
      exact Bool.noConfusion h
    · intro _
      refine ⟨rfl, ?_, ?_, ?_⟩
      · unfold elemValue
        rw [hframe _ (by decide) (by decide), houtE2]
        rfl
      · unfold elemDisabled
        rw [hframe _ (by decide) (by decide), hcopyE2]
      · unfold elemDisabled
        rw [hframe _ (by decide) (by decide), hdlE2]

/-- Effect of `handleSummarize` on a failure response, for either source
choice (validation passing for whichever text the radio selects, elements
present): the status is shown but the output area's content and the session
state are left unchanged — unlike `handleTranslate`, which clears the output
area on failure. -/
theorem handleSummarize_response (d : Dom) (st : App.AppState) (response : ApiResponse)
    (inp out : Elem)
    (hin : getElementById d "inputText" = some inp)
    (hout : getElementById d "outputText" = some out)
    (hvalidS : if orDefault (UI.getRadioValue "summarySource" d) "original" == "translated"
      then jsTrim out.value ≠ "" ∧ ¬ (jsTrim out.value).length < 50
      else jsTrim inp.value ≠ "" ∧ ¬ (jsTrim inp.value).length < 50)
    (hb : (getElementById d "summarizeBtn").isSome)
    (hsp : (getElementById d "summarizeSpinner").isSome)
    (hmdl : (getElementById d "summaryModel").isSome)
    (hstat : (getElementById d "outputStats").isSome)
    (hcopy : (getElementById d "copyOutput").isSome)
    (hdload : (getElementById d "downloadOutput").isSome) :
    ∃ d' st' req, App.handleSummarize d st response = .ok (d', st', req) ∧
      (response.success = false →
        st' = st ∧
        elemValue d' "outputText" = some out.value ∧
        elemDisabled d' "copyOutput" = elemDisabled d "copyOutput" ∧
        elemDisabled d' "downloadOutput" = elemDisabled d "downloadOutput") := by
  obtain ⟨btn, hb⟩ := Option.isSome_iff_exists.mp hb
  obtain ⟨spn, hsp⟩ := Option.isSome_iff_exists.mp hsp
  obtain ⟨mdlE, hmdlE⟩ := Option.isSome_iff_exists.mp hmdl
  obtain ⟨D1, hD1⟩ : ∃ D1, UI.showLoading "summarizeBtn" "summarizeSpinner" d = .ok D1 :=
    ⟨_, showLoading_eq _ _ _ _ _ hb hsp⟩
  have hout0 : getElementById (UI.showStatus "Summarizing..." "info" 0 D1) "outputText" =
      some out := by
    rw [showStatus_frame _ _ _ _ _ (by decide) (by decide),
      showLoading_frame _ _ _ _ hD1 _ (by decide) (by decide), hout]
  have hmdl1 : getElementById (UI.showStatus "Summarizing..." "info" 0 D1) "summaryModel" =
      some mdlE := by
    rw [showStatus_frame _ _ _ _ _ (by decide) (by decide),
      showLoading_frame _ _ _ _ hD1 _ (by decide) (by decide), hmdlE]
  unfold App.handleSummarize
  rw [hin, hout]
  dsimp only
  by_cases hsrc : (orDefault (UI.getRadioValue "summarySource" d) "original" ==
      "translated") = true
  · rw [if_pos hsrc] at hvalidS
    obtain ⟨hv, hl⟩ := hvalidS
    have hv2 : jsTrim (jsTrim out.value) ≠ "" := by rw [jsTrim_idem]; exact hv
    have hl2 : ¬ (jsTrim (jsTrim out.value)).length < 50 := by rw [jsTrim_idem]; exact hl
    rw [if_pos hsrc]
    rw [validateInput_ok _ _ _ hv2 hl2]
    dsimp only
    rw [if_neg (by decide)]
    dsimp only
    rw [hD1]
    dsimp only
    rw [hmdl1]
    dsimp only
    cases hresp : response.success with
    | true =>
      rw [if_pos rfl]
      set E1 := updateElem (UI.showStatus "Summarizing..." "info" 0 D1) "outputText"
        (fun e => { e with value := response.summary }) with hE1def
      set E2 := UI.updateStats "outputText" "outputStats" E1 with hE2def
      set E3 := UI.updateOutputButtons true E2 with hE3def
      set E4 := UI.showStatus ("✓ Summarized in " ++ response.processing_time ++ "s")
        "success" 3000 E3 with hE4def
      dsimp only
      have hbE4 : (getElementById E4 "summarizeBtn").isSome := by
        rw [hE4def, isSome_showStatus, hE3def, isSome_updateOutputButtons, hE2def,
          isSome_updateStats, hE1def, isSome_getElementById_updateElem, isSome_showStatus,
          isSome_showLoading _ _ _ _ hD1, hb]
        rfl
      have hspE4 : (getElementById E4 "summarizeSpinner").isSome := by
        rw [hE4def, isSome_showStatus, hE3def, isSome_updateOutputButtons, hE2def,
          isSome_updateStats, hE1def, isSome_getElementById_updateElem, isSome_showStatus,
          isSome_showLoading _ _ _ _ hD1, hsp]
        rfl
      obtain ⟨be, hbe⟩ := Option.isSome_iff_exists.mp hbE4
      obtain ⟨se, hse⟩ := Option.isSome_iff_exists.mp hspE4
      obtain ⟨d2, hrun, hdis, hspin, hframe⟩ :=
        hideLoading_resolves _ _ _ _ _ hbe hse (by decide)
      refine ⟨d2, { st with currentOutputText := response.summary },
        some ⟨jsTrim out.value, mdlE.value,
          orDefault (UI.getRadioValue "summaryLength" d) "short",
          orDefault (UI.getRadioValue "summaryFormat" d) "paragraph"⟩, ?_, ?_⟩
      · rw [hrun]
        rfl
      · intro h
        exact Bool.noConfusion h
    | false =>
      rw [if_neg (by decide)]
      set E2 := UI.showStatus (response.error.getD "Summarization failed") "error" 5000
        (UI.showStatus "Summarizing..." "info" 0 D1) with hE2def
      dsimp only
      have houtE2 : getElementById E2 "outputText" = some out := by
        rw [hE2def, showStatus_frame _ _ _ _ _ (by decide) (by decide), hout0]
      have hcopyE2 : getElementById E2 "copyOutput" = getElementById d "copyOutput" := by
        rw [hE2def, showStatus_frame _ _ _ _ _ (by decide) (by decide),
          showStatus_frame _ _ _ _ _ (by decide) (by decide),
          showLoading_frame _ _ _ _ hD1 _ (by decide) (by decide)]
      have hdlE2 : getElementById E2 "downloadOutput" =
          getElementById d "downloadOutput" := by
        rw [hE2def, showStatus_frame _ _ _ _ _ (by decide) (by decide),
          showStatus_frame _ _ _ _ _ (by decide) (by decide),
          showLoading_frame _ _ _ _ hD1 _ (by decide) (by decide)]
      have hbE2 : (getElementById E2 "summarizeBtn").isSome := by
        rw [hE2def, isSome_showStatus, isSome_showStatus,
          isSome_showLoading _ _ _ _ hD1, hb]
        rfl
      have hspE2 : (getElementById E2 "summarizeSpinner").isSome := by
        rw [hE2def, isSome_showStatus, isSome_showStatus,
          isSome_showLoading _ _ _ _ hD1, hsp]
        rfl
      obtain ⟨be, hbe⟩ := Option.isSome_iff_exists.mp hbE2
      obtain ⟨se, hse⟩ := Option.isSome_iff_exists.mp hspE2
      obtain ⟨d2, hrun, hdis, hspin, hframe⟩ :=
        hideLoading_resolves _ _ _ _ _ hbe hse (by decide)
      refine ⟨d2, st, some ⟨jsTrim out.value, mdlE.value,
        orDefault (UI.getRadioValue "summaryLength" d) "short",
        orDefault (UI.getRadioValue "summaryFormat" d) "paragraph"⟩, ?_, ?_⟩
      · rw [hrun]
        rfl
      · intro _
        refine ⟨rfl, ?_, ?_, ?_⟩
        · unfold elemValue
          rw [hframe _ (by decide) (by decide), houtE2]
          rfl
        · unfold elemDisabled
          rw [hframe _ (by decide) (by decide), hcopyE2]
        · unfold elemDisabled
          rw [hframe _ (by decide) (by decide), hdlE2]
  · rw [if_neg hsrc] at hvalidS
    obtain ⟨hv, hl⟩ := hvalidS
    have hv2 : jsTrim (jsTrim inp.value) ≠ "" := by rw [jsTrim_idem]; exact hv
    have hl2 : ¬ (jsTrim (jsTrim inp.value)).length < 50 := by rw [jsTrim_idem]; exact hl
    rw [if_neg hsrc]
    rw [validateInput_ok _ _ _ hv2 hl2]
    dsimp only
    rw [if_neg (by decide)]
    dsimp only
    rw [hD1]
    dsimp only
    rw [hmdl1]
    dsimp only
    cases hresp : response.success with
    | true =>
      rw [if_pos rfl]
      set E1 := updateElem (UI.showStatus "Summarizing..." "info" 0 D1) "outputText"
        (fun e => { e with value := response.summary }) with hE1def
      set E2 := UI.updateStats "outputText" "outputStats" E1 with hE2def
      set E3 := UI.updateOutputButtons true E2 with hE3def
      set E4 := UI.showStatus ("✓ Summarized in " ++ response.processing_time ++ "s")
        "success" 3000 E3 with hE4def
      dsimp only
      have hbE4 : (getElementById E4 "summarizeBtn").isSome := by
        rw [hE4def, isSome_showStatus, hE3def, isSome_updateOutputButtons, hE2def,
          isSome_updateStats, hE1def, isSome_getElementById_updateElem, isSome_showStatus,
          isSome_showLoading _ _ _ _ hD1, hb]
        rfl
      have hspE4 : (getElementById E4 "summarizeSpinner").isSome := by
        rw [hE4def, isSome_showStatus, hE3def, isSome_updateOutputButtons, hE2def,
          isSome_updateStats, hE1def, isSome_getElementById_updateElem, isSome_showStatus,
          isSome_showLoading _ _ _ _ hD1, hsp]
        rfl
      obtain ⟨be, hbe⟩ := Option.isSome_iff_exists.mp hbE4
      obtain ⟨se, hse⟩ := Option.isSome_iff_exists.mp hspE4
      obtain ⟨d2, hrun, hdis, hspin, hframe⟩ :=
        hideLoading_resolves _ _ _ _ _ hbe hse (by decide)
      refine ⟨d2, { st with currentOutputText := response.summary },
        some ⟨jsTrim inp.value, mdlE.value,
          orDefault (UI.getRadioValue "summaryLength" d) "short",
          orDefault (UI.getRadioValue "summaryFormat" d) "paragraph"⟩, ?_, ?_⟩
      · rw [hrun]
        rfl
      · intro h
        exact Bool.noConfusion h
    | false =>
      rw [if_neg (by decide)]
      set E2 := UI.showStatus (response.error.getD "Summarization failed") "error" 5000
        (UI.showStatus "Summarizing..." "info" 0 D1) with hE2def
      dsimp only
      have houtE2 : getElementById E2 "outputText" = some out := by
        rw [hE2def, showStatus_frame _ _ _ _ _ (by decide) (by decide), hout0]
      have hcopyE2 : getElementById E2 "copyOutput" = getElementById d "copyOutput" := by
        rw [hE2def, showStatus_frame _ _ _ _ _ (by decide) (by decide),
          showStatus_frame _ _ _ _ _ (by decide) (by decide),
          showLoading_frame _ _ _ _ hD1 _ (by decide) (by decide)]
      have hdlE2 : getElementById E2 "downloadOutput" =
          getElementById d "downloadOutput" := by
        rw [hE2def, showStatus_frame _ _ _ _ _ (by decide) (by decide),
          showStatus_frame _ _ _ _ _ (by decide) (by decide),
          showLoading_frame _ _ _ _ hD1 _ (by decide) (by decide)]
      have hbE2 : (getElementById E2 "summarizeBtn").isSome := by
        rw [hE2def, isSome_showStatus, isSome_showStatus,
          isSome_showLoading _ _ _ _ hD1, hb]
        rfl
      have hspE2 : (getElementById E2 "summarizeSpinner").isSome := by
        rw [hE2def, isSome_showStatus, isSome_showStatus,
          isSome_showLoading _ _ _ _ hD1, hsp]
        rfl
      obtain ⟨be, hbe⟩ := Option.isSome_iff_exists.mp hbE2
      obtain ⟨se, hse⟩ := Option.isSome_iff_exists.mp hspE2
      obtain ⟨d2, hrun, hdis, hspin, hframe⟩ :=
        hideLoading_resolves _ _ _ _ _ hbe hse (by decide)
      refine ⟨d2, st, some ⟨jsTrim inp.value, mdlE.value,
        orDefault (UI.getRadioValue "summaryLength" d) "short",
        orDefault (UI.getRadioValue "summaryFormat" d) "paragraph"⟩, ?_, ?_⟩
      · rw [hrun]
        rfl
      · intro _
        refine ⟨rfl, ?_, ?_, ?_⟩
        · unfold elemValue
          rw [hframe _ (by decide) (by decide), houtE2]
          rfl
        · unfold elemDisabled
          rw [hframe _ (by decide) (by decide), hcopyE2]
        · unfold elemDisabled
          rw [hframe _ (by decide) (by decide), hdlE2]

/-- When the summarize source radio is `translated` and validation of the
output text fails (empty or shorter than 50 characters after trimming), the
handler returns before `showLoading`, issues no request, and the status
message last shown is the distinct
`Please translate text first or select "Original Text"`. -/
theorem handleSummarize_translated_invalid (d : Dom) (st : App.AppState)
    (response : ApiResponse) (inp out : Elem)
    (hin : getElementById d "inputText" = some inp)
    (hout : getElementById d "outputText" = some out)
    (hsource : (orDefault (UI.getRadioValue "summarySource" d) "original" ==
      "translated") = true)
    (hfail : jsTrim out.value = "" ∨ (jsTrim out.value).length < 50)
    (hbar : (getElementById d "statusBar").isSome)
    (hmsg : (getElementById d "statusMessage").isSome) :
    ∃ d', App.handleSummarize d st response = .ok (d', st, none) ∧
      elemText d' "statusMessage" =
        some "Please translate text first or select \"Original Text\"" := by
  unfold App.handleSummarize
  rw [hin, hout]
  dsimp only
  rw [hsource, if_pos rfl]
  have hred : (UI.validateInput (jsTrim out.value) 50 d).1 = false ∧
      ∃ m, (UI.validateInput (jsTrim out.value) 50 d).2 =
        UI.showStatus m "error" 3000 d := by
    by_cases hz : jsTrim out.value = ""
    · rw [validateInput_empty _ _ _ (by rw [jsTrim_idem]; exact hz)]
      exact ⟨rfl, _, rfl⟩
    · have hlt : (jsTrim (jsTrim out.value)).length < 50 := by
        rw [jsTrim_idem]
        rcases hfail with h | h
        · exact absurd h hz
        · exact h
      rw [validateInput_short _ _ _ (by rw [jsTrim_idem]; exact hz) hlt]
      exact ⟨rfl, _, rfl⟩
  obtain ⟨hflag, m, hdom⟩ := hred
  rw [hflag, hdom]
  rw [if_pos (by decide)]
  dsimp only
  refine ⟨_, rfl, ?_⟩
  exact showStatus_text _ _ _ _
    (by rw [isSome_showStatus]; exact hbar)
    (by rw [isSome_showStatus]; exact hmsg)

theorem isSome_populateLanguageDropdown (selectId : String) (ls : List Language) (ex : Bool)
    (d : Dom) (id : String) :
    (getElementById (UI.populateLanguageDropdown selectId ls ex d) id).isSome =
      (getElementById d id).isSome := by
  unfold UI.populateLanguageDropdown
  cases hs : getElementById d selectId with
  | none => rfl
  | some s => exact isSome_getElementById_updateElem _ _ _ _

/-! ### Concrete documents used to instantiate the theorems -/

/-- The input text of the demo document (length 86, well over 50). -/
def demoText : String :=
  "This is a long enough input text for summarization, well over fifty characters total."

/-- Input text area of the demo document. -/
def demoInput : Elem := { value := demoText }

/-- Output text area of the demo document (no translation yet). -/
def demoOutput : Elem := { value := "" }

/-- A demo document with every element the handlers touch. -/
def demoDom : Dom :=
  { elems :=
      [("inputText", demoInput),
       ("outputText", demoOutput),
       ("inputStats", {}),
       ("outputStats", {}),
       ("sourceLanguage", { value := "en" }),
       ("targetLanguage", { value := "hi" }),
       ("translationModel", { value := "m2m" }),
       ("summaryModel", { value := "bart" }),
       ("translateBtn", { btnTextOpacity := some "1" }),
       ("translateSpinner", {}),
       ("summarizeBtn", { btnTextOpacity := some "1" }),
       ("summarizeSpinner", {}),
       ("copyOutput", { disabled := true }),
       ("downloadOutput", { disabled := true }),
       ("statusBar", {}),
       ("statusMessage", {})]
    radios := [("summaryLength", "short"), ("summaryFormat", "paragraph"),
               ("summarySource", "original")] }

/-- Fresh session state. -/
def demoState : App.AppState := {}

/-- A successful translate response. -/
def demoOkResp : ApiResponse :=
  { success := true, translated_text := "Bonjour le monde", processing_time := "0.42" }

/-- A failure response carrying a server message. -/
def demoFailResp : ApiResponse :=
  { success := false, error := some "model unavailable" }

/-- A document whose spinner exists but whose button does not. -/
def spinnerOnlyDom : Dom := { elems := [("translateSpinner", {})] }

/-! ### The claims -/

/-- C1: the transport client's `post` and `get` never propagate a thrown
exception (their codomain is a plain response, every input produces a value);
whenever the `try` body throws or rejects they return the object
`{success: false, error: "Failed to connect to server. Please ensure the
backend is running."}`, and on a parsed response they return it unchanged. -/
theorem C1_transport_normalizes_failures (endpoint : String)
    (data : List (String × String)) (outcome : Except Unit ApiResponse) :
    (∀ e, outcome = .error e →
      API.post endpoint data outcome = API.connectError ∧
      API.get endpoint outcome = API.connectError) ∧
    (∀ r, outcome = .ok r →
      API.post endpoint data outcome = r ∧ API.get endpoint outcome = r) ∧
    API.connectError.success = false ∧
    API.connectError.error =
      some "Failed to connect to server. Please ensure the backend is running." := by
  refine ⟨?_, ?_, rfl, rfl⟩
  · rintro e rfl
    exact ⟨rfl, rfl⟩
  · rintro r rfl
    exact ⟨rfl, rfl⟩

theorem C1_transport_witness :
    API.post "/translate" [("text", "hello")] (Except.error ()) = API.connectError ∧
    API.get "/translate" (Except.error ()) = API.connectError :=
  (C1_transport_normalizes_failures "/translate" [("text", "hello")]
    (Except.error ())).1 () rfl

/-- C2 (code bug): the presentation helpers are meant to be no-ops on missing
elements, and every helper except the loading pair is; but `showLoading` and
`hideLoading` dereference the button (`button.querySelector('.btn-text')`)
before their own `if (button && spinner)` null check, so with the button
element absent they throw a `TypeError` instead of no-opping. -/
theorem C2_loading_throws_on_missing_button :
    UI.showLoading "translateBtn" "translateSpinner" spinnerOnlyDom = .error () ∧
    UI.hideLoading "translateBtn" "translateSpinner" spinnerOnlyDom = .error () :=
  ⟨rfl, rfl⟩

/-- C6: `validateInput` returns `false` with status `Please enter some text`
when the text trims to empty, `false` with the minimum-length status when the
trimmed length is below the minimum, and `true` (showing nothing) otherwise;
the cases apply in the order the source checks them. -/
theorem C6_validateInput_cases (t : String) (m : Nat) (d : Dom)
    (hbar : (getElementById d "statusBar").isSome)
    (hmsg : (getElementById d "statusMessage").isSome) :
    (jsTrim t = "" →
      (UI.validateInput t m d).1 = false ∧
      elemText (UI.validateInput t m d).2 "statusMessage" =
        some "Please enter some text") ∧
    (jsTrim t ≠ "" → (jsTrim t).length < m →
      (UI.validateInput t m d).1 = false ∧
      elemText (UI.validateInput t m d).2 "statusMessage" =
        some ("Text must be at least " ++ toString m ++ " characters")) ∧
    (jsTrim t ≠ "" → ¬ (jsTrim t).length < m →
      UI.validateInput t m d = (true, d)) := by
  refine ⟨?_, ?_, ?_⟩
  · intro h
    rw [validateInput_empty _ _ _ h]
    refine ⟨rfl, ?_⟩
    dsimp only
    exact showStatus_text _ _ _ _ hbar hmsg
  · intro h1 h2
    rw [validateInput_short _ _ _ h1 h2]
    refine ⟨rfl, ?_⟩
    dsimp only
    exact showStatus_text _ _ _ _ hbar hmsg
  · intro h1 h2
    exact validateInput_ok _ _ _ h1 h2

theorem C6_validateInput_witness :
    ((UI.validateInput "   " 1 demoDom).1 = false ∧
      elemText (UI.validateInput "   " 1 demoDom).2 "statusMessage" =
        some "Please enter some text") ∧
    UI.validateInput "hello" 3 demoDom = (true, demoDom) :=
  ⟨(C6_validateInput_cases "   " 1 demoDom (by decide) (by decide)).1 (by decide),
   (C6_validateInput_cases "hello" 3 demoDom (by decide) (by decide)).2.2
     (by decide) (by decide)⟩

/-- A tiny document holding the `Hello world` example. -/
def statsDemoDom : Dom :=
  { elems := [("inputText", { value := "Hello world" }), ("inputStats", {})] }

/-- C7: `updateStats` writes `Characters: <length of t> | Words: <number of
whitespace-delimited tokens of the trimmed t>` into the stats element, with
the word count 0 when the text trims to empty. -/
theorem C7_updateStats_display (d : Dom) (areaId statsId : String) (area : Elem)
    (t : String)
    (ha : getElementById d areaId = some area) (hv : area.value = t)
    (hs : (getElementById d statsId).isSome) :
    elemText (UI.updateStats areaId statsId d) statsId =
      some ("Characters: " ++ toString t.length ++ " | Words: " ++
        toString (UI.wordCountOf t)) ∧
    (jsTrim t = "" → UI.wordCountOf t = 0) ∧
    (jsTrim t ≠ "" → UI.wordCountOf t = (UI.jsSplitWS (jsTrim t)).length) := by
  subst hv
  refine ⟨updateStats_text _ _ _ _ ha hs, ?_, ?_⟩
  · intro h
    simp [UI.wordCountOf, h]
  · intro h
    simp [UI.wordCountOf, h]

theorem C7_updateStats_witness :
    elemText (UI.updateStats "inputText" "inputStats" statsDemoDom) "inputStats" =
      some "Characters: 11 | Words: 2" :=
  ((C7_updateStats_display statsDemoDom "inputText" "inputStats"
    { value := "Hello world" } "Hello world" (by decide) rfl (by decide)).1).trans
    (by decide)

/-- C3: whenever a translate or summarize action passes validation (and so
enters the Loading state via `showLoading`), the handler terminates with the
triggering button re-enabled and its spinner's `active` class removed — on the
success path, the domain-failure path, and the caught thrown-error path alike
(the response and the presence of the remaining elements are arbitrary). -/
theorem C3_loading_cleared_on_every_exit (d : Dom) (st : App.AppState)
    (response : ApiResponse) (inp out : Elem)
    (hin : getElementById d "inputText" = some inp)
    (hout : getElementById d "outputText" = some out)
    (hbt : (getElementById d "translateBtn").isSome)
    (hst : (getElementById d "translateSpinner").isSome)
    (hbs : (getElementById d "summarizeBtn").isSome)
    (hss : (getElementById d "summarizeSpinner").isSome)
    (hvalidT : jsTrim inp.value ≠ "")
    (hvalidS : if orDefault (UI.getRadioValue "summarySource" d) "original" == "translated"
      then jsTrim out.value ≠ "" ∧ ¬ (jsTrim out.value).length < 50
      else jsTrim inp.value ≠ "" ∧ ¬ (jsTrim inp.value).length < 50) :
    (∃ d' st' req, App.handleTranslate d st response = .ok (d', st', req) ∧
      elemDisabled d' "translateBtn" = some false ∧
      (∃ sp, getElementById d' "translateSpinner" = some sp ∧ "active" ∉ sp.classes)) ∧
    (∃ d' st' req, App.handleSummarize d st response = .ok (d', st', req) ∧
      elemDisabled d' "summarizeBtn" = some false ∧
      (∃ sp, getElementById d' "summarizeSpinner" = some sp ∧ "active" ∉ sp.classes)) :=
  ⟨handleTranslate_idle d st response inp hin (by rw [hout]; rfl) hvalidT hbt hst,
   handleSummarize_idle d st response inp out hin hout hbs hss hvalidS⟩

theorem C3_witness :
    (∃ d' st' req, App.handleTranslate demoDom demoState demoFailResp =
        .ok (d', st', req) ∧
      elemDisabled d' "translateBtn" = some false ∧
      (∃ sp, getElementById d' "translateSpinner" = some sp ∧ "active" ∉ sp.classes)) ∧
    (∃ d' st' req, App.handleSummarize demoDom demoState demoFailResp =
        .ok (d', st', req) ∧
      elemDisabled d' "summarizeBtn" = some false ∧
      (∃ sp, getElementById d' "summarizeSpinner" = some sp ∧ "active" ∉ sp.classes)) :=
  C3_loading_cleared_on_every_exit demoDom demoState demoFailResp demoInput demoOutput
    (by decide) (by decide) (by decide) (by decide) (by decide) (by decide)
    (by decide) (by decide)

/-- C4: on a successful translate response the output area holds the returned
text, the output stats reflect it, and both output action buttons become
enabled; on a failure response the output area is set to empty and the
enabled/disabled state of both output buttons is exactly what it was before
the call. -/
theorem C4_translate_updates_output (d : Dom) (st : App.AppState)
    (response : ApiResponse) (inp out : Elem)
    (hin : getElementById d "inputText" = some inp)
    (hout : getElementById d "outputText" = some out)
    (valid : jsTrim inp.value ≠ "")
    (hb : (getElementById d "translateBtn").isSome)
    (hsp : (getElementById d "translateSpinner").isSome)
    (hsrc : (getElementById d "sourceLanguage").isSome)
    (htgt : (getElementById d "targetLanguage").isSome)
    (hmdl : (getElementById d "translationModel").isSome)
    (hstat : (getElementById d "outputStats").isSome)
    (hcopy : (getElementById d "copyOutput").isSome)
    (hdload : (getElementById d "downloadOutput").isSome) :
    ∃ d' st' req, App.handleTranslate d st response = .ok (d', st', req) ∧
      (response.success = true →
        elemValue d' "outputText" = some response.translated_text ∧
        elemText d' "outputStats" = some ("Characters: " ++
          toString response.translated_text.length ++ " | Words: " ++
          toString (UI.wordCountOf response.translated_text)) ∧
        elemDisabled d' "copyOutput" = some false ∧
        elemDisabled d' "downloadOutput" = some false) ∧
      (response.success = false →
        elemValue d' "outputText" = some "" ∧
        elemDisabled d' "copyOutput" = elemDisabled d "copyOutput" ∧
        elemDisabled d' "downloadOutput" = elemDisabled d "downloadOutput") := by
  obtain ⟨d', st', req, hrun, hpos, hneg⟩ := handleTranslate_response d st response
    inp out hin hout valid hb hsp hsrc htgt hmdl hstat hcopy hdload
  exact ⟨d', st', req, hrun, fun h => (hpos h).2, fun h => (hneg h).2⟩

theorem C4_witness :
    ∃ d' st' req, App.handleTranslate demoDom demoState demoOkResp = .ok (d', st', req) ∧
      (demoOkResp.success = true →
        elemValue d' "outputText" = some demoOkResp.translated_text ∧
        elemText d' "outputStats" = some ("Characters: " ++
          toString demoOkResp.translated_text.length ++ " | Words: " ++
          toString (UI.wordCountOf demoOkResp.translated_text)) ∧
        elemDisabled d' "copyOutput" = some false ∧
        elemDisabled d' "downloadOutput" = some false) ∧
      (demoOkResp.success = false →
        elemValue d' "outputText" = some "" ∧
        elemDisabled d' "copyOutput" = elemDisabled demoDom "copyOutput" ∧
        elemDisabled d' "downloadOutput" = elemDisabled demoDom "downloadOutput") :=
  C4_translate_updates_output demoDom demoState demoOkResp demoInput demoOutput
    (by decide) (by decide) (by decide) (by decide) (by decide) (by decide)
    (by decide) (by decide) (by decide) (by decide) (by decide)

/-- An output area holding a nonempty translation shorter than 50 characters. -/
def shortOutput : Elem := { value := "hello" }

/-- A document with the `translated` summarize source selected and a short,
nonempty translation in the output area. -/
def translatedCexDom : Dom :=
  { elems :=
      [("inputText", demoInput), ("outputText", shortOutput),
       ("statusBar", {}), ("statusMessage", {})]
    radios := [("summarySource", "translated")] }

/-- C5 counterexample: with the `translated` source selected and a NONEMPTY
translation of fewer than 50 characters in the output area, the distinct
"Please translate text first or select \"Original Text\"" message is still
the one shown, refuting the claim's "exactly when no translation exists yet
(output empty)". -/
theorem C5_counterexample :
    elemValue translatedCexDom "outputText" = some "hello" ∧
    (some "hello" ≠ (some "" : Option String)) ∧
    ∃ d', App.handleSummarize translatedCexDom demoState demoFailResp =
        .ok (d', demoState, none) ∧
      elemText d' "statusMessage" =
        some "Please translate text first or select \"Original Text\"" := by
  refine ⟨by decide, by decide, ?_⟩
  exact handleSummarize_translated_invalid translatedCexDom demoState demoFailResp
    demoInput shortOutput (by decide) (by decide) (by decide)
    (Or.inr (by decide)) (by decide) (by decide)

/-- C5 (amended): whenever the summarize source is `translated` and validation
of the output text fails — output empty, or trimmed length below 50 — the
status shown is the distinct "Please translate text first or select
\"Original Text\"" message (in particular when no translation exists yet),
and no summarize request is issued to the transport client (the returned
request component is `none`). -/
theorem C5_translated_source_no_request (d : Dom) (st : App.AppState)
    (response : ApiResponse) (inp out : Elem)
    (hin : getElementById d "inputText" = some inp)
    (hout : getElementById d "outputText" = some out)
    (hsource : (orDefault (UI.getRadioValue "summarySource" d) "original" ==
      "translated") = true)
    (hfail : jsTrim out.value = "" ∨ (jsTrim out.value).length < 50)
    (hbar : (getElementById d "statusBar").isSome)
    (hmsg : (getElementById d "statusMessage").isSome) :
    ∃ d', App.handleSummarize d st response = .ok (d', st, none) ∧
      elemText d' "statusMessage" =
        some "Please translate text first or select \"Original Text\"" :=
  handleSummarize_translated_invalid d st response inp out hin hout hsource hfail
    hbar hmsg

/-- A document with the `translated` summarize source selected and no
translation yet. -/
def translatedEmptyDom : Dom :=
  { elems :=
      [("inputText", demoInput), ("outputText", demoOutput),
       ("statusBar", {}), ("statusMessage", {})]
    radios := [("summarySource", "translated")] }

theorem C5_witness :
    ∃ d', App.handleSummarize translatedEmptyDom demoState demoFailResp =
        .ok (d', demoState, none) ∧
      elemText d' "statusMessage" =
        some "Please translate text first or select \"Original Text\"" :=
  C5_translated_source_no_request translatedEmptyDom demoState demoFailResp
    demoInput demoOutput (by decide) (by decide) (by decide)
    (Or.inl (by decide)) (by decide) (by decide)

/-- C8 (amended): when the source selector holds `auto`, `swapLanguages`
changes neither selector and shows the error status; otherwise it exchanges
the two values, and applying it twice restores the original pair provided the
target's value is not `auto` (a value the target selector is never populated
with, but which the claim's unrestricted quantification over values allows). -/
theorem C8_swap_amended (d : Dom) (s t : Elem)
    (hs : getElementById d "sourceLanguage" = some s)
    (ht : getElementById d "targetLanguage" = some t)
    (hbar : (getElementById d "statusBar").isSome)
    (hmsg : (getElementById d "statusMessage").isSome) :
    (s.value = "auto" →
      elemValue (UI.swapLanguages d) "sourceLanguage" = some s.value ∧
      elemValue (UI.swapLanguages d) "targetLanguage" = some t.value ∧
      elemText (UI.swapLanguages d) "statusMessage" =
        some "Cannot swap with auto-detect") ∧
    (s.value ≠ "auto" →
      elemValue (UI.swapLanguages d) "sourceLanguage" = some t.value ∧
      elemValue (UI.swapLanguages d) "targetLanguage" = some s.value) ∧
    (s.value ≠ "auto" → t.value ≠ "auto" →
      elemValue (UI.swapLanguages (UI.swapLanguages d)) "sourceLanguage" = some s.value ∧
      elemValue (UI.swapLanguages (UI.swapLanguages d)) "targetLanguage" =
        some t.value) := by
  have main : ∀ (d : Dom) (s t : Elem), getElementById d "sourceLanguage" = some s →
      getElementById d "targetLanguage" = some t → s.value ≠ "auto" →
      getElementById (UI.swapLanguages d) "sourceLanguage" =
        some { s with value := t.value } ∧
      getElementById (UI.swapLanguages d) "targetLanguage" =
        some { t with value := s.value } := by
    intro d s t hs ht hne
    constructor
    · rw [swapLanguages_eq d s t hs ht hne,
        showStatus_frame _ _ _ _ _ (by decide) (by decide),
        getElementById_updateElem_ne _ _ _ _ (by decide),
        getElementById_updateElem_self, hs]
      rfl
    · rw [swapLanguages_eq d s t hs ht hne,
        showStatus_frame _ _ _ _ _ (by decide) (by decide),
        getElementById_updateElem_self,
        getElementById_updateElem_ne _ _ _ _ (by decide), ht]
      rfl
  refine ⟨?_, ?_, ?_⟩
  · intro hauto
    rw [swapLanguages_auto d s t hs ht hauto]
    refine ⟨?_, ?_, showStatus_text _ _ _ _ hbar hmsg⟩
    · unfold elemValue
      rw [showStatus_frame _ _ _ _ _ (by decide) (by decide), hs]
      rfl
    · unfold elemValue
      rw [showStatus_frame _ _ _ _ _ (by decide) (by decide), ht]
      rfl
  · intro hne
    obtain ⟨h1, h2⟩ := main d s t hs ht hne
    constructor
    · unfold elemValue
      rw [h1]
      rfl
    · unfold elemValue
      rw [h2]
      rfl
  · intro hne hne2
    obtain ⟨h1, h2⟩ := main d s t hs ht hne
    obtain ⟨h3, h4⟩ := main _ _ _ h1 h2 hne2
    constructor
    · unfold elemValue
      rw [h3]
      rfl
    · unfold elemValue
      rw [h4]
      rfl

/-- A document whose source selector holds `en` and whose target selector
holds the sentinel `auto`. -/
def swapCexDom : Dom :=
  { elems :=
      [("sourceLanguage", { value := "en" }), ("targetLanguage", { value := "auto" }),
       ("statusBar", {}), ("statusMessage", {})] }

/-- C8 counterexample: with source `en` (not `auto`) and target `auto`, the
first swap succeeds but the second is refused (the source now holds `auto`),
so swapping twice leaves the pair `(auto, en)` instead of restoring
`(en, auto)` — the claimed involution fails on this pair of values. -/
theorem C8_counterexample :
    elemValue swapCexDom "sourceLanguage" = some "en" ∧
    elemValue swapCexDom "targetLanguage" = some "auto" ∧
    elemValue (UI.swapLanguages (UI.swapLanguages swapCexDom)) "sourceLanguage" =
      some "auto" ∧
    elemValue (UI.swapLanguages (UI.swapLanguages swapCexDom)) "targetLanguage" =
      some "en" := by decide

theorem C8_witness :
    elemValue (UI.swapLanguages demoDom) "sourceLanguage" = some "hi" ∧
    elemValue (UI.swapLanguages demoDom) "targetLanguage" = some "en" ∧
    elemValue (UI.swapLanguages (UI.swapLanguages demoDom)) "sourceLanguage" =
      some "en" ∧
    elemValue (UI.swapLanguages (UI.swapLanguages demoDom)) "targetLanguage" =
      some "hi" := by
  obtain ⟨ha, hb, hc⟩ := C8_swap_amended demoDom { value := "en" } { value := "hi" }
    (by decide) (by decide) (by decide) (by decide)
  have h2 := hb (by decide)
  have h3 := hc (by decide) (by decide)
  exact ⟨h2.1, h2.2, h3.1, h3.2⟩

/-- C9: populating the selectors from a language list loaded from the backend
gives the source selector one option per record (every record, `auto`
included when present) and gives the target selector a list in which no
option's code is `auto`. -/
theorem C9_dropdown_population (langs : List Language) (d : Dom) (st : App.AppState)
    (response : LanguagesResponse)
    (hsucc : response.success = true) (hlangs : response.languages = some langs)
    (hsrc : (getElementById d "sourceLanguage").isSome)
    (htgt : (getElementById d "targetLanguage").isSome) :
    (getElementById (App.loadLanguages d st response).1 "sourceLanguage").map
      Elem.options =
        some (langs.map (fun l => (l.code, l.name ++ " (" ++ l.native ++ ")"))) ∧
    (∀ opts, (getElementById (App.loadLanguages d st response).1 "targetLanguage").map
      Elem.options = some opts → ∀ o ∈ opts, o.1 ≠ "auto") := by
  unfold App.loadLanguages
  rw [if_pos (show (response.success && response.languages.isSome) = true by
    rw [hsucc, hlangs]; rfl)]
  dsimp only
  rw [hlangs]
  simp only [Option.getD_some]
  constructor
  · rw [populateLanguageDropdown_frame _ _ _ _ _ (by decide),
      populateLanguageDropdown_options _ _ _ _ hsrc, buildOptions_eq]
    simp
  · intro opts h
    have hpres : (getElementById (UI.populateLanguageDropdown "sourceLanguage" langs
        false d) "targetLanguage").isSome := by
      rw [isSome_populateLanguageDropdown]
      exact htgt
    rw [populateLanguageDropdown_options _ _ _ _ hpres, buildOptions_eq] at h
    obtain rfl := Option.some.inj h
    intro o ho
    obtain ⟨l, hl, rfl⟩ := List.mem_map.mp ho
    have hpred := (List.mem_filter.mp hl).2
    simpa using hpred

/-- The backend language list used for the witnesses, `auto` included. -/
def demoLangs : List Language :=
  [⟨"auto", "Auto Detect", "Auto"⟩, ⟨"en", "English", "English"⟩,
   ⟨"hi", "Hindi", "Hindi"⟩]

/-- A successful `/languages` response. -/
def demoLangResp : LanguagesResponse := { success := true, languages := some demoLangs }

theorem C9_witness :
    (getElementById (App.loadLanguages demoDom demoState demoLangResp).1
      "sourceLanguage").map Elem.options =
        some (demoLangs.map (fun l => (l.code, l.name ++ " (" ++ l.native ++ ")"))) ∧
    (∀ opts, (getElementById (App.loadLanguages demoDom demoState demoLangResp).1
      "targetLanguage").map Elem.options = some opts → ∀ o ∈ opts, o.1 ≠ "auto") :=
  C9_dropdown_population demoLangs demoDom demoState demoLangResp rfl rfl
    (by decide) (by decide)

/-- C10: on a failure response, `handleSummarize` leaves the output area's
content unchanged (unlike `handleTranslate`, which sets it to empty), and both
handlers leave the session state's `currentOutputText` with its previous
value. -/
theorem C10_failure_preserves_output_state (d : Dom) (st : App.AppState)
    (response : ApiResponse) (inp out : Elem)
    (hin : getElementById d "inputText" = some inp)
    (hout : getElementById d "outputText" = some out)
    (hvalidS : if orDefault (UI.getRadioValue "summarySource" d) "original" == "translated"
      then jsTrim out.value ≠ "" ∧ ¬ (jsTrim out.value).length < 50
      else jsTrim inp.value ≠ "" ∧ ¬ (jsTrim inp.value).length < 50)
    (valid : jsTrim inp.value ≠ "")
    (hbt : (getElementById d "translateBtn").isSome)
    (hst : (getElementById d "translateSpinner").isSome)
    (hbs : (getElementById d "summarizeBtn").isSome)
    (hss : (getElementById d "summarizeSpinner").isSome)
    (hsrc : (getElementById d "sourceLanguage").isSome)
    (htgt : (getElementById d "targetLanguage").isSome)
    (hmdl : (getElementById d "translationModel").isSome)
    (hsmdl : (getElementById d "summaryModel").isSome)
    (hstat : (getElementById d "outputStats").isSome)
    (hcopy : (getElementById d "copyOutput").isSome)
    (hdload : (getElementById d "downloadOutput").isSome)
    (hfail : response.success = false) :
    (∃ d' st' req, App.handleSummarize d st response = .ok (d', st', req) ∧
      elemValue d' "outputText" = elemValue d "outputText" ∧
      st'.currentOutputText = st.currentOutputText) ∧
    (∃ d' st' req, App.handleTranslate d st response = .ok (d', st', req) ∧
      elemValue d' "outputText" = some "" ∧
      st'.currentOutputText = st.currentOutputText) := by
  constructor
  · obtain ⟨d', st', req, hrun, hneg⟩ := handleSummarize_response d st response inp out
      hin hout hvalidS hbs hss hsmdl hstat hcopy hdload
    obtain ⟨hst', hval, _, _⟩ := hneg hfail
    refine ⟨d', st', req, hrun, ?_, by rw [hst']⟩
    rw [hval]
    unfold elemValue
    rw [hout]
    rfl
  · obtain ⟨d', st', req, hrun, _, hneg⟩ := handleTranslate_response d st response inp out
      hin hout valid hbt hst hsrc htgt hmdl hstat hcopy hdload
    obtain ⟨hst', hval, _, _⟩ := hneg hfail
    exact ⟨d', st', req, hrun, hval, by rw [hst']⟩

/-- The demo document with a long prior translation in the output area and the
`translated` summarize source selected, so the summarize request is built from
the output text. -/
def demoTranslatedDom : Dom :=
  { elems :=
      [("inputText", demoInput),
       ("outputText", { value := demoText }),
       ("inputStats", {}),
       ("outputStats", {}),
       ("sourceLanguage", { value := "en" }),
       ("targetLanguage", { value := "hi" }),
       ("translationModel", { value := "m2m" }),
       ("summaryModel", { value := "bart" }),
       ("translateBtn", { btnTextOpacity := some "1" }),
       ("translateSpinner", {}),
       ("summarizeBtn", { btnTextOpacity := some "1" }),
       ("summarizeSpinner", {}),
       ("copyOutput", { disabled := true }),
       ("downloadOutput", { disabled := true }),
       ("statusBar", {}),
       ("statusMessage", {})]
    radios := [("summaryLength", "short"), ("summaryFormat", "paragraph"),
               ("summarySource", "translated")] }

theorem C10_witness :
    (∃ d' st' req, App.handleSummarize demoTranslatedDom demoState demoFailResp =
        .ok (d', st', req) ∧
      elemValue d' "outputText" = elemValue demoTranslatedDom "outputText" ∧
      st'.currentOutputText = demoState.currentOutputText) ∧
    (∃ d' st' req, App.handleTranslate demoTranslatedDom demoState demoFailResp =
        .ok (d', st', req) ∧
      elemValue d' "outputText" = some "" ∧
      st'.currentOutputText = demoState.currentOutputText) :=
  C10_failure_preserves_output_state demoTranslatedDom demoState demoFailResp demoInput
    { value := demoText } (by decide) (by decide) (by decide) (by decide) (by decide)
    (by decide) (by decide) (by decide) (by decide) (by decide) (by decide) (by decide)
    (by decide) (by decide) (by decide) rfl

end Frontend
